import Mathlib

/-!
Verification of the SMC market-structure analysis and signal-generation
engine (`src/analysis.js`, class `SMCAnalyzer`) and of the keyword-based
news sentiment analyzer (`NewsAnalyzer.analyzeSentiment`).

Numbers are embedded as rationals (`ℚ`); JavaScript `Math.round` is
embedded as `mathRound` (floor of x + 1/2, which matches JS round-half-
toward-positive-infinity semantics), and `parseFloat(x.toFixed(d))` as
`roundTo d`.  Candle sequences are Lean lists; array indexing `a[i]` on
in-bounds indices is embedded as `List.getD i dfltCandle`.
-/

set_option maxRecDepth 100000
set_option maxHeartbeats 4000000

/- The Batteries rational-arithmetic primitives are `@[irreducible]`, which
blocks `decide`/`rfl` evaluation of the embedded functions on concrete
candle data; restore the default reducibility for this development. -/
attribute [local semireducible] Rat.add Rat.mul Rat.sub Rat.inv Rat.ofScientific

/-- JavaScript `Math.round`: rounds half toward positive infinity. -/
def mathRound (q : ℚ) : ℤ := ⌊q + 1/2⌋

/-- JavaScript `parseFloat(x.toFixed (d))` for the non-negative prices used
here: round to `d` decimal places. -/
def roundTo (d : ℕ) (q : ℚ) : ℚ := (mathRound (q * 10 ^ d) : ℚ) / 10 ^ d

/-- One OHLC bar.  `time` and `volume` are carried by the JS objects but are
never read by the analysis code under verification, so they are omitted. -/
structure Candle where
  open_ : ℚ
  high : ℚ
  low : ℚ
  close : ℚ
  deriving DecidableEq, Repr

/-- Default candle used as the `List.getD` fallback; every access in the
embedding is guarded by the same bounds as the JS loops, so this value is
never observable. -/
def dfltCandle : Candle := ⟨0, 0, 0, 0⟩

inductive SwingType where
  | high
  | low
  deriving DecidableEq, Repr

/-- A swing point as pushed by `findSwingPoints`. -/
structure Swing where
  type : SwingType
  price : ℚ
  index : ℕ
  deriving DecidableEq, Repr

/-- The inner `j = 1..period` loop of `findSwingPoints` leaves `isHigh`
true iff every neighbour within radius 7 has a strictly smaller high. -/
def isSwingHigh (cs : List Candle) (i : ℕ) : Bool :=
  (List.range 7).all fun j =>
    decide ((cs.getD (i - (j+1)) dfltCandle).high < (cs.getD i dfltCandle).high) &&
    decide ((cs.getD (i + (j+1)) dfltCandle).high < (cs.getD i dfltCandle).high)

/-- Symmetric test for `isLow`. -/
def isSwingLow (cs : List Candle) (i : ℕ) : Bool :=
  (List.range 7).all fun j =>
    decide ((cs.getD i dfltCandle).low < (cs.getD (i - (j+1)) dfltCandle).low) &&
    decide ((cs.getD i dfltCandle).low < (cs.getD (i + (j+1)) dfltCandle).low)

/-- The swings pushed for one loop index `i` of `findSwingPoints`: a high
swing when `isHigh`, then a low swing when `isLow`. -/
def swingAt (cs : List Candle) (i : ℕ) : List Swing :=
  (if isSwingHigh cs i then [⟨SwingType.high, (cs.getD i dfltCandle).high, i⟩] else []) ++
  (if isSwingLow cs i then [⟨SwingType.low, (cs.getD i dfltCandle).low, i⟩] else [])

/-- `findSwingPoints` (src/analysis.js lines 162-183): the loop runs `i`
from `period = 7` up to `candles.length - period` (exclusive). -/
def findSwingPoints (cs : List Candle) : List Swing :=
  (List.range (cs.length - 14)).foldr (fun k acc => swingAt cs (k + 7) ++ acc) []

inductive Trend where
  | bullish
  | bearish
  | ranging
  deriving DecidableEq, Repr

/-- The `for (let i = 2; ...)` walk of `identifyMarketStructure` compares
`swings[i]` with `swings[i-2]`; the visited pairs are exactly
`swings.zip (swings.drop 2)`. -/
def hhllCounts (swings : List Swing) : ℕ × ℕ :=
  (swings.zip (swings.drop 2)).foldl
    (fun acc pc =>
      ((if pc.2.type = SwingType.high ∧ pc.2.price > pc.1.price then acc.1 + 1 else acc.1),
       (if pc.2.type = SwingType.low ∧ pc.2.price < pc.1.price then acc.2 + 1 else acc.2)))
    (0, 0)

structure MarketStructure where
  trend : Trend
  swings : List Swing
  higherHighs : ℕ
  lowerLows : ℕ
  deriving DecidableEq, Repr

/-- `identifyMarketStructure` (src/analysis.js lines 143-160). -/
def identifyMarketStructure (cs : List Candle) : MarketStructure :=
  let swings := findSwingPoints cs
  let counts := hhllCounts swings
  let trend := if counts.1 > counts.2 then Trend.bullish
               else if counts.2 > counts.1 then Trend.bearish
               else Trend.ranging
  ⟨trend, swings, counts.1, counts.2⟩

/-- Modelled from the spec (§4.2): the Structure Classifier is described as
incrementing the counts only for a pair of same-type swings separated by
exactly one opposite-type swing.  This definition follows the spec's words
and is compared against `hhllCounts`, which follows the source. -/
def hhllCountsSpec (swings : List Swing) : ℕ × ℕ :=
  ((swings.zip (swings.drop 1)).zip (swings.drop 2)).foldl
    (fun acc t =>
      let prev := t.1.1
      let mid := t.1.2
      let curr := t.2
      ((if curr.type = SwingType.high ∧ prev.type = SwingType.high ∧
           mid.type = SwingType.low ∧ curr.price > prev.price then acc.1 + 1 else acc.1),
       (if curr.type = SwingType.low ∧ prev.type = SwingType.low ∧
           mid.type = SwingType.high ∧ curr.price < prev.price then acc.2 + 1 else acc.2)))
    (0, 0)

/-- Stable insertion (descending by `key`): an element is placed before the
first strictly-smaller key, matching the stable sort guaranteed by
JavaScript `Array.prototype.sort` with comparator `(a, b) => key b - key a`. -/
def insertDescBy (key : α → ℚ) (x : α) : List α → List α
  | [] => [x]
  | y :: ys => if key y < key x then x :: y :: ys else y :: insertDescBy key x ys

/-- Stable sort, descending by `key`: elements are inserted left to right,
each landing after every already-placed element of equal key. -/
def sortDescBy (key : α → ℚ) (l : List α) : List α :=
  l.foldl (fun acc x => insertDescBy key x acc) []

/-- JavaScript `Array.prototype.slice (-k)`: the last `k` elements. -/
def lastN (k : ℕ) (l : List α) : List α := l.drop (l.length - k)

inductive SRType where
  | support
  | resistance
  deriving DecidableEq, Repr

structure SRLevelRaw where
  price : ℚ
  touches : ℕ
  lastTouch : ℕ
  deriving DecidableEq, Repr

structure SRLevel where
  price : ℚ
  touches : ℕ
  lastTouch : ℕ
  type : SRType
  deriving DecidableEq, Repr

/-- One `levels.find`-and-update step of `findSupportResistance`: bump the
first level within relative tolerance 0.002, else append a new level. -/
def srAddPrice (i : ℕ) (p : ℚ) : List SRLevelRaw → List SRLevelRaw
  | [] => [⟨p, 1, i⟩]
  | l :: ls =>
      if |l.price - p| / p < 0.002 then ⟨l.price, l.touches + 1, i⟩ :: ls
      else l :: srAddPrice i p ls

/-- `findSupportResistance` (src/analysis.js lines 289-319). -/
def findSupportResistance (cs : List Candle) : List SRLevel :=
  let levels : List SRLevelRaw := (cs.enum).foldl
    (fun acc ci =>
      srAddPrice ci.1 ci.2.close (srAddPrice ci.1 ci.2.low (srAddPrice ci.1 ci.2.high acc)))
    []
  let current := (cs.getD (cs.length - 1) dfltCandle).close
  ((sortDescBy (fun l : SRLevelRaw => (l.touches : ℚ))
      (levels.filter (fun l => 4 ≤ l.touches))).take 8).map
    fun l => ⟨l.price, l.touches, l.lastTouch,
              if l.price > current then SRType.resistance else SRType.support⟩

inductive Side where
  | bullish
  | bearish
  deriving DecidableEq, Repr

structure OrderBlock where
  type : Side
  top : ℚ
  bottom : ℚ
  index : ℕ
  strength : ℚ
  deriving DecidableEq, Repr

/-- The order blocks pushed at one loop index of `findOrderBlocks`. -/
def orderBlockAt (cs : List Candle) (i : ℕ) : List OrderBlock :=
  let prev := cs.getD i dfltCandle
  let next := cs.getD (i + 1) dfltCandle
  (if prev.close < prev.open_ ∧ next.close > next.open_ ∧
      (next.close - next.open_) / next.open_ > 0.003 then
    [⟨Side.bullish, prev.high, prev.low, i, (next.close - next.open_) / next.open_ * 100⟩]
   else []) ++
  (if prev.close > prev.open_ ∧ next.close < next.open_ ∧
      (next.open_ - next.close) / next.open_ > 0.003 then
    [⟨Side.bearish, prev.high, prev.low, i, (next.open_ - next.close) / next.open_ * 100⟩]
   else [])

/-- `findOrderBlocks` (lines 324-361): loop `i` from 10 to `length - 3`
(exclusive), then keep the strongest 8. -/
def findOrderBlocks (cs : List Candle) : List OrderBlock :=
  (sortDescBy (fun ob => ob.strength)
    ((List.range (cs.length - 3 - 10)).foldr (fun k acc => orderBlockAt cs (k + 10) ++ acc) [])).take 8

/-- The advanced order blocks pushed at one loop index. -/
def advancedOrderBlockAt (cs : List Candle) (i : ℕ) : List OrderBlock :=
  let prev := cs.getD i dfltCandle
  let next := cs.getD (i + 1) dfltCandle
  let bullishMove := if next.close > next.open_ then (next.close - next.open_) / next.open_ else 0
  let bearishMove := if next.close < next.open_ then (next.open_ - next.close) / next.open_ else 0
  (if prev.close < prev.open_ ∧ bullishMove > 0.01 then
    [⟨Side.bullish, prev.high, prev.low, i, bullishMove * 100⟩] else []) ++
  (if prev.close > prev.open_ ∧ bearishMove > 0.01 then
    [⟨Side.bearish, prev.high, prev.low, i, bearishMove * 100⟩] else [])

/-- `findAdvancedOrderBlocks` (lines 366-400): loop `i` from 20 to
`length - 5` (exclusive), then keep the strongest 5. -/
def findAdvancedOrderBlocks (cs : List Candle) : List OrderBlock :=
  (sortDescBy (fun ob => ob.strength)
    ((List.range (cs.length - 5 - 20)).foldr
      (fun k acc => advancedOrderBlockAt cs (k + 20) ++ acc) [])).take 5

structure FVG where
  type : Side
  top : ℚ
  bottom : ℚ
  index : ℕ
  size : ℚ
  filled : Bool
  deriving DecidableEq, Repr

/-- `checkFVGFilled` (lines 444-451): scan candles after `fvgIndex` for a
retrace into at least the midpoint of the gap. -/
def checkFVGFilled (cs : List Candle) (fvgIndex : ℕ) (type : Side) (bottom top : ℚ) : Bool :=
  (List.range (cs.length - (fvgIndex + 1))).any fun k =>
    let candle := cs.getD (fvgIndex + 1 + k) dfltCandle
    match type with
    | Side.bullish => decide (candle.low ≤ bottom + (top - bottom) * 0.5)
    | Side.bearish => decide (candle.high ≥ bottom + (top - bottom) * 0.5)

/-- The fair value gaps pushed at one loop index of `detectFairValueGaps`. -/
def gapAt (cs : List Candle) (i : ℕ) : List FVG :=
  let prev := cs.getD (i - 1) dfltCandle
  let next := cs.getD (i + 1) dfltCandle
  (if prev.high < next.low then
    [⟨Side.bullish, next.low, prev.high, i, next.low - prev.high,
      checkFVGFilled cs i Side.bullish prev.high next.low⟩]
   else []) ++
  (if prev.low > next.high then
    [⟨Side.bearish, prev.low, next.high, i, prev.low - next.high,
      checkFVGFilled cs i Side.bearish next.high prev.low⟩]
   else [])

/-- The full `detectFairValueGaps` scan (lines 405-439): loop `i` from 1 to
`length - 1` (exclusive). -/
def detectFVGsAll (cs : List Candle) : List FVG :=
  (List.range (cs.length - 2)).foldr (fun k acc => gapAt cs (k + 1) ++ acc) []

/-- `detectFairValueGaps` stores only the last 15 gaps (`fvgs.slice (-15)`). -/
def detectFairValueGaps (cs : List Candle) : List FVG :=
  lastN 15 (detectFVGsAll cs)

inductive LiquiditySide where
  | buySide
  | sellSide
  deriving DecidableEq, Repr

structure LiquidityZone where
  type : LiquiditySide
  price : ℚ
  index : ℕ
  swept : Bool
  deriving DecidableEq, Repr

/-- `checkLiquiditySwept` (lines 474-482). -/
def checkLiquiditySwept (cs : List Candle) (swing : Swing) : Bool :=
  (List.range (cs.length - (swing.index + 1))).any fun k =>
    let candle := cs.getD (swing.index + 1 + k) dfltCandle
    match swing.type with
    | SwingType.high => decide (candle.high > swing.price * (1 + 0.001))
    | SwingType.low => decide (candle.low < swing.price * (1 - 0.001))

/-- `findLiquidityZones` (lines 456-472): one zone per swing, last 10 kept. -/
def findLiquidityZones (cs : List Candle) (swings : List Swing) : List LiquidityZone :=
  lastN 10 (swings.map fun swing =>
    ⟨(if swing.type = SwingType.high then LiquiditySide.buySide else LiquiditySide.sellSide),
     swing.price, swing.index, checkLiquiditySwept cs swing⟩)

/-- Maximum of a list of rationals (`Math.max(...)`); the default is never
observable because every call site passes a non-empty list. -/
def qMax (l : List ℚ) : ℚ := l.foldl max (l.headD 0)

/-- Minimum of a list of rationals (`Math.min(...)`). -/
def qMin (l : List ℚ) : ℚ := l.foldl min (l.headD 0)

structure Breakout where
  type : Side
  price : ℚ
  index : ℕ
  deriving DecidableEq, Repr

/-- `detectBreakouts` (lines 487-506). -/
def detectBreakouts (cs : List Candle) : List Breakout :=
  let recent := lastN 30 cs
  let highs := recent.map (·.high)
  let lows := recent.map (·.low)
  let resistance := qMax (highs.take (highs.length - 5))
  let support := qMin (lows.take (lows.length - 5))
  let last5 := lastN 5 cs
  (if last5.any fun c => decide (c.close > resistance * 1.002) then
    [⟨Side.bullish, resistance, cs.length - 5⟩] else []) ++
  (if last5.any fun c => decide (c.close < support * 0.998) then
    [⟨Side.bearish, support, cs.length - 5⟩] else [])

structure Retest where
  price : ℚ
  direction : Side
  index : ℕ
  deriving DecidableEq, Repr

/-- `checkRetest` (lines 529-539): scan up to 9 candles after the breakout. -/
def checkRetest (cs : List Candle) (b : Breakout) : Bool :=
  (List.range (min (b.index + 10) cs.length - (b.index + 1))).any fun k =>
    let candle := cs.getD (b.index + 1 + k) dfltCandle
    decide (|candle.low - b.price| / b.price < 0.003) ||
    decide (|candle.high - b.price| / b.price < 0.003)

/-- `findRetestZones` (lines 511-527). -/
def findRetestZones (cs : List Candle) (breakouts : List Breakout) : List Retest :=
  (breakouts.filter (checkRetest cs)).map fun b => ⟨b.price, b.type, b.index + 3⟩

structure StructEvent where
  type : Side
  price : ℚ
  index : ℕ
  deriving DecidableEq, Repr

/-- `detectChoCHAndBOS` (lines 544-572): CHoCH and BOS events from the
same `swings[i]` vs `swings[i-2]` walk, each capped to the last 3. -/
def detectChoCHAndBOS (swings : List Swing) : List StructEvent × List StructEvent :=
  let pairs := swings.zip (swings.drop 2)
  let chochs := pairs.foldr
    (fun pc acc =>
      if pc.1.type = pc.2.type then
        (if pc.2.type = SwingType.high ∧ pc.2.price < pc.1.price then
          [(⟨Side.bearish, pc.2.price, pc.2.index⟩ : StructEvent)] else []) ++
        (if pc.2.type = SwingType.low ∧ pc.2.price > pc.1.price then
          [(⟨Side.bullish, pc.2.price, pc.2.index⟩ : StructEvent)] else []) ++ acc
      else acc) []
  let bos := pairs.foldr
    (fun pc acc =>
      if pc.1.type = pc.2.type then
        (if pc.2.type = SwingType.high ∧ pc.2.price > pc.1.price then
          [(⟨Side.bullish, pc.2.price, pc.2.index⟩ : StructEvent)] else []) ++
        (if pc.2.type = SwingType.low ∧ pc.2.price < pc.1.price then
          [(⟨Side.bearish, pc.2.price, pc.2.index⟩ : StructEvent)] else []) ++ acc
      else acc) []
  (lastN 3 chochs, lastN 3 bos)

inductive WyckoffPhase where
  | neutral
  | accumulation
  | distribution
  | markup
  | markdown
  deriving DecidableEq, Repr

structure Wyckoff where
  phase : WyckoffPhase
  confidence : ℕ
  deriving DecidableEq, Repr

/-- Variance of period-over-period returns (`calculateVolatility` squared,
lines 599-607).  The source compares `Math.sqrt (variance) < 0.015`; since
the variance is non-negative that comparison is equivalent to
`variance < 0.015 ^ 2`, which keeps the embedding inside `ℚ`. -/
def returnsVariance (candles : List Candle) : ℚ :=
  let returns : List ℚ := (candles.zip (candles.drop 1)).map
    (fun pc => (pc.2.close - pc.1.close) / pc.1.close)
  let mean : ℚ := returns.foldl (· + ·) 0 / (returns.length : ℚ)
  (returns.map (fun r => (r - mean) ^ 2)).foldl (· + ·) 0 / (returns.length : ℚ)

/-- `analyzeWyckoff` (lines 577-597), with the volatility comparison
rewritten as a variance comparison (see `returnsVariance`). -/
def analyzeWyckoff (cs : List Candle) : Wyckoff :=
  let recent := lastN 30 cs
  let priceChange := ((recent.getD (recent.length - 1) dfltCandle).close -
    (recent.headD dfltCandle).close) / (recent.headD dfltCandle).close
  if |priceChange| < 0.02 ∧ returnsVariance recent < 0.015 ^ 2 then
    ⟨(if priceChange < 0 then WyckoffPhase.accumulation else WyckoffPhase.distribution), 75⟩
  else if priceChange > 0.05 then ⟨WyckoffPhase.markup, 80⟩
  else if priceChange < -0.05 then ⟨WyckoffPhase.markdown, 80⟩
  else ⟨WyckoffPhase.neutral, 50⟩

inductive PDZone where
  | premium
  | discount
  | equilibrium
  deriving DecidableEq, Repr

structure PDLevels where
  high : ℚ
  fib786 : ℚ
  fib618 : ℚ
  equilibrium : ℚ
  fib382 : ℚ
  fib236 : ℚ
  low : ℚ
  ote_high : ℚ
  ote_low : ℚ
  deriving DecidableEq, Repr

structure PremiumDiscount where
  levels : PDLevels
  currentZone : PDZone
  deriving DecidableEq, Repr

/-- `calculatePremiumDiscount` (src/analysis.js lines 612-637). -/
def calculatePremiumDiscount (cs : List Candle) : PremiumDiscount :=
  let recent := lastN 100 cs
  let high := qMax (recent.map (·.high))
  let low := qMin (recent.map (·.low))
  let range := high - low
  let levels : PDLevels :=
    ⟨high, high - range * 0.214, high - range * 0.382, high - range * 0.5,
     high - range * 0.618, high - range * 0.764, low,
     high - range * 0.214, high - range * 0.382⟩
  let current := (cs.getD (cs.length - 1) dfltCandle).close
  let zone := if current ≥ levels.fib618 then PDZone.premium
              else if current ≤ levels.fib382 then PDZone.discount
              else PDZone.equilibrium
  ⟨levels, zone⟩

inductive NewsDirection where
  | BULLISH
  | BEARISH
  | NEUTRAL
  deriving DecidableEq, Repr

/-- The part of the news-analysis response that `generateSignal` reads
(`newsAnalysis.direction` and `newsAnalysis.sentiment`). -/
structure NewsResult where
  direction : NewsDirection
  sentiment : ℤ
  deriving DecidableEq, Repr

/-- The `newsConfidence` computed in `generateSignal` (lines 650-673):
`none` models a sentiment fetch that failed or hit the 10-second timeout
(the `catch` branch sets `newsConfidence = 0`). -/
def newsConfidenceOf : Option NewsResult → ℕ
  | none => 0
  | some na =>
      match na.direction with
      | NewsDirection.BULLISH => min 100 na.sentiment.natAbs
      | NewsDirection.BEARISH => min 100 na.sentiment.natAbs
      | NewsDirection.NEUTRAL => 50

/-- One entry of the `reasons` array.  The JS pushes formatted strings; the
embedding keeps the tag and the numeric payload of each push instead of the
rendered text. -/
inductive Reason where
  | discountZone
  | premiumZone
  | supportLevel (price : ℚ) (touches : ℕ)
  | resistanceLevel (price : ℚ) (touches : ℕ)
  | bullishOrderBlock
  | bearishOrderBlock
  | bullishFVG
  | bearishFVG
  | liquiditySwept
  | bullishCHoCH
  | bearishCHoCH
  | wyckoffAccumulation
  | wyckoffDistribution
  | newsBullish (sentiment : ℤ)
  | newsBearish (sentiment : ℤ)
  | newsNeutral
  deriving DecidableEq, Repr

/-- The `analysisData` snapshot attached to a Signal (lines 680-693).
`trendlines` and `channels` are omitted: `drawTrendlines` and
`detectChannels` are never called by `analyze`, so both are always `[]`. -/
structure AnalysisData where
  supportResistance : List SRLevel
  orderBlocks : List OrderBlock
  advancedOBs : List OrderBlock
  fvgs : List FVG
  liquidityZones : List LiquidityZone
  breakouts : List Breakout
  chochs : List StructEvent
  bos : List StructEvent
  wyckoff : Wyckoff
  premiumDiscount : PDZone
  deriving DecidableEq, Repr

inductive SignalAction where
  | BUY
  | SELL
  deriving DecidableEq, Repr

structure Signal where
  symbol : String
  timeframe : ℕ
  timeframeName : String
  action : SignalAction
  bias : Side
  entry : ℚ
  entryTriggered : Bool
  optimalEntry : ℚ
  sl : ℚ
  tp1 : ℚ
  tp2 : ℚ
  tp3 : ℚ
  tp1Pips : ℤ
  tp2Pips : ℤ
  tp3Pips : ℤ
  slPips : ℤ
  tp1ZAR : ℤ
  tp2ZAR : ℤ
  tp3ZAR : ℤ
  slZAR : ℤ
  decimals : ℕ
  confidence : ℕ
  technicalConfidence : ℕ
  smcConfidence : ℕ
  sentimentConfidence : ℕ
  riskReward : ℚ
  reasons : List Reason
  newsAnalysis : Option NewsResult
  analysisData : AnalysisData
  timestamp : ℕ
  status : String
  concepts : List String
  deriving DecidableEq, Repr

/-- `getDecimals` (lines 1091-1105). -/
def getDecimals (symbol : String) : ℕ :=
  match symbol with
  | "XAUUSD" => 2
  | "BTCUSD" => 2
  | "USDJPY" => 2
  | "EURUSD" => 4
  | "GBPUSD" => 4
  | "USDCAD" => 4
  | "AUDUSD" => 4
  | "AUDCAD" => 4
  | _ => 4

/-- `getPipValue` (lines 1107-1121). -/
def getPipValue (symbol : String) : ℚ :=
  match symbol with
  | "XAUUSD" => 0.01
  | "BTCUSD" => 1
  | "EURUSD" => 0.0001
  | "GBPUSD" => 0.0001
  | "USDCAD" => 0.0001
  | "AUDUSD" => 0.0001
  | "AUDCAD" => 0.0001
  | "USDJPY" => 0.01
  | _ => 0.0001

/-- `getZARPerPip` (lines 1123-1147), with `zarRate = 18.50`. -/
def getZARPerPip (symbol : String) : ℚ :=
  match symbol with
  | "EURUSD" => 0.0001 * 1000 * 18.5
  | "GBPUSD" => 0.0001 * 1000 * 18.5
  | "USDCAD" => 0.0001 * 1000 * 18.5
  | "AUDUSD" => 0.0001 * 1000 * 18.5
  | "AUDCAD" => 0.0001 * 1000 * 18.5
  | "USDJPY" => 0.01 * 1000 * 18.5
  | "XAUUSD" => 0.01 * 100 * 18.5
  | "BTCUSD" => 1 * 0.01 * 18.5
  | _ => 1.85

/-- `getTimeframeName` (lines 1149-1160). -/
def getTimeframeName (timeframe : ℕ) : String :=
  match timeframe with
  | 60 => "1 Minute"
  | 300 => "5 Minutes"
  | 900 => "15 Minutes"
  | 1800 => "30 Minutes"
  | 3600 => "1 Hour"
  | 14400 => "4 Hours"
  | 86400 => "1 Day"
  | _ => toString timeframe ++ "s"

/-- The state written by the analysis phases of `analyze` before
`generateSignal` reads it (the `this.analysis` object). -/
structure AnalysisState where
  marketStructure : MarketStructure
  supportResistance : List SRLevel
  orderBlocks : List OrderBlock
  advancedOBs : List OrderBlock
  fvgs : List FVG
  liquidityZones : List LiquidityZone
  breakouts : List Breakout
  retests : List Retest
  chochs : List StructEvent
  bos : List StructEvent
  wyckoff : Wyckoff
  premiumDiscount : PremiumDiscount
  deriving DecidableEq, Repr

/-- The sequence of analysis phases run by `analyze` (lines 54-106) before
signal generation.  `drawTrendlines` and `detectChannels` are commented out
in the source and therefore absent here. -/
def computeAnalysis (cs : List Candle) : AnalysisState :=
  let ms := identifyMarketStructure cs
  let breakouts := detectBreakouts cs
  let events := detectChoCHAndBOS ms.swings
  { marketStructure := ms
    supportResistance := findSupportResistance cs
    orderBlocks := findOrderBlocks cs
    advancedOBs := findAdvancedOrderBlocks cs
    fvgs := detectFairValueGaps cs
    liquidityZones := findLiquidityZones cs ms.swings
    breakouts := breakouts
    retests := findRetestZones cs breakouts
    chochs := events.1
    bos := events.2
    wyckoff := analyzeWyckoff cs
    premiumDiscount := calculatePremiumDiscount cs }

/-- The JS `support.reduce(...)` picking the level whose price is nearest to
the entry, keeping the earlier one on ties. -/
def nearestLevel (entry : ℚ) (x : SRLevel) (xs : List SRLevel) : SRLevel :=
  xs.foldl (fun prev curr =>
    if |curr.price - entry| < |prev.price - entry| then curr else prev) x

/-- `List.getD` fallback level; every use is guarded by a length test, as
the corresponding JS indexing is. -/
def dfltSRLevel : SRLevel := ⟨0, 0, 0, SRType.support⟩

/-- `createBuySignal` (src/analysis.js lines 862-968).  `now` embeds
`Date.now()`. -/
def createBuySignal (symbol : String) (timeframe : ℕ) (now : ℕ) (current : Candle)
    (a : AnalysisState) (overallConfidence technicalConfidence smcConfidence newsConfidence : ℕ)
    (reasons : List Reason) (newsAnalysis : Option NewsResult)
    (analysisData : AnalysisData) : Signal :=
  let entry := current.close
  let pd := a.premiumDiscount
  let decimals := getDecimals symbol
  let pipValue := getPipValue symbol
  let swings := a.marketStructure.swings
  let highs := lastN 5 (swings.filter (fun s => s.type = SwingType.high))
  let lows := lastN 5 (swings.filter (fun s => s.type = SwingType.low))
  let resistance := a.supportResistance.filter
    (fun sr => sr.type = SRType.resistance ∧ sr.price > entry)
  let support := a.supportResistance.filter
    (fun sr => sr.type = SRType.support ∧ sr.price < entry)
  let sl :=
    match lows, support with
    | _ :: _, _ => qMin (lows.map (·.price)) - pipValue * 5
    | [], s :: ss => (nearestLevel entry s ss).price - pipValue * 5
    | [], [] => entry * 0.995
  let slDistance := |entry - sl|
  let tp1 :=
    if 0 < resistance.length ∧ (resistance.getD 0 dfltSRLevel).price < entry + slDistance * 3
    then (resistance.getD 0 dfltSRLevel).price
    else entry + slDistance * 1.5
  let tp2 :=
    if 1 < resistance.length ∧ (resistance.getD 1 dfltSRLevel).price < entry + slDistance * 4
    then (resistance.getD 1 dfltSRLevel).price
    else entry + slDistance * 2.5
  let tp3 :=
    if 2 < resistance.length ∧ (resistance.getD 2 dfltSRLevel).price < entry + slDistance * 6
    then (resistance.getD 2 dfltSRLevel).price
    else
      match highs with
      | _ :: _ =>
          let recentHigh := qMax (highs.map (·.price))
          if recentHigh > entry then recentHigh + pipValue * 5 else entry + slDistance * 4
      | [] => entry + slDistance * 4
  let zarPerPip := getZARPerPip symbol
  let tp1Pips := mathRound (|tp1 - entry| / pipValue)
  let tp2Pips := mathRound (|tp2 - entry| / pipValue)
  let tp3Pips := mathRound (|tp3 - entry| / pipValue)
  let slPips := mathRound (|entry - sl| / pipValue)
  { symbol := symbol
    timeframe := timeframe
    timeframeName := getTimeframeName timeframe
    action := SignalAction.BUY
    bias := Side.bullish
    entry := roundTo decimals entry
    entryTriggered := false
    optimalEntry := roundTo decimals pd.levels.ote_low
    sl := roundTo decimals sl
    tp1 := roundTo decimals tp1
    tp2 := roundTo decimals tp2
    tp3 := roundTo decimals tp3
    tp1Pips := tp1Pips
    tp2Pips := tp2Pips
    tp3Pips := tp3Pips
    slPips := slPips
    tp1ZAR := mathRound ((tp1Pips : ℚ) * zarPerPip)
    tp2ZAR := mathRound ((tp2Pips : ℚ) * zarPerPip)
    tp3ZAR := mathRound ((tp3Pips : ℚ) * zarPerPip)
    slZAR := mathRound ((slPips : ℚ) * zarPerPip)
    decimals := decimals
    confidence := overallConfidence
    technicalConfidence := min 100 technicalConfidence
    smcConfidence := min 100 smcConfidence
    sentimentConfidence := min 100 newsConfidence
    riskReward := roundTo 2 ((tp2Pips : ℚ) / (slPips : ℚ))
    reasons := reasons
    newsAnalysis := newsAnalysis
    analysisData := analysisData
    timestamp := now
    status := "active"
    concepts := ["Trendlines", "SMC/ICT", "News Sentiment"] }

/-- `createSellSignal` (src/analysis.js lines 970-1089).  The source file
contains a duplicated fragment spliced into the middle of this function's
return object (lines 1042-1055); the embedding follows the level
computations of lines 971-1040 and the complete return block of lines
1056-1088, mirroring `createBuySignal` for the fields the splice cut off
(`entryTriggered`, and `slZAR` from line 1040). -/
def createSellSignal (symbol : String) (timeframe : ℕ) (now : ℕ) (current : Candle)
    (a : AnalysisState) (overallConfidence technicalConfidence smcConfidence newsConfidence : ℕ)
    (reasons : List Reason) (newsAnalysis : Option NewsResult)
    (analysisData : AnalysisData) : Signal :=
  let entry := current.close
  let pd := a.premiumDiscount
  let decimals := getDecimals symbol
  let pipValue := getPipValue symbol
  let swings := a.marketStructure.swings
  let highs := lastN 5 (swings.filter (fun s => s.type = SwingType.high))
  let lows := lastN 5 (swings.filter (fun s => s.type = SwingType.low))
  let resistance := a.supportResistance.filter
    (fun sr => sr.type = SRType.resistance ∧ sr.price > entry)
  let support := a.supportResistance.filter
    (fun sr => sr.type = SRType.support ∧ sr.price < entry)
  let sl :=
    match highs, resistance with
    | _ :: _, _ => qMax (highs.map (·.price)) + pipValue * 5
    | [], r :: rs => (nearestLevel entry r rs).price + pipValue * 5
    | [], [] => entry * 1.005
  let slDistance := |sl - entry|
  let tp1 :=
    if 0 < support.length ∧
       (support.getD (support.length - 1) dfltSRLevel).price > entry - slDistance * 3
    then (support.getD (support.length - 1) dfltSRLevel).price
    else entry - slDistance * 1.5
  let tp2 :=
    if 1 < support.length ∧
       (support.getD (support.length - 2) dfltSRLevel).price > entry - slDistance * 4
    then (support.getD (support.length - 2) dfltSRLevel).price
    else entry - slDistance * 2.5
  let tp3 :=
    if 2 < support.length ∧
       (support.getD (support.length - 3) dfltSRLevel).price > entry - slDistance * 6
    then (support.getD (support.length - 3) dfltSRLevel).price
    else
      match lows with
      | _ :: _ =>
          let recentLow := qMin (lows.map (·.price))
          if recentLow < entry then recentLow - pipValue * 5 else entry - slDistance * 4
      | [] => entry - slDistance * 4
  let zarPerPip := getZARPerPip symbol
  let tp1Pips := mathRound (|entry - tp1| / pipValue)
  let tp2Pips := mathRound (|entry - tp2| / pipValue)
  let tp3Pips := mathRound (|entry - tp3| / pipValue)
  let slPips := mathRound (|sl - entry| / pipValue)
  { symbol := symbol
    timeframe := timeframe
    timeframeName := getTimeframeName timeframe
    action := SignalAction.SELL
    bias := Side.bearish
    entry := roundTo decimals entry
    entryTriggered := false
    optimalEntry := roundTo decimals pd.levels.ote_high
    sl := roundTo decimals sl
    tp1 := roundTo decimals tp1
    tp2 := roundTo decimals tp2
    tp3 := roundTo decimals tp3
    tp1Pips := tp1Pips
    tp2Pips := tp2Pips
    tp3Pips := tp3Pips
    slPips := slPips
    tp1ZAR := mathRound ((tp1Pips : ℚ) * zarPerPip)
    tp2ZAR := mathRound ((tp2Pips : ℚ) * zarPerPip)
    tp3ZAR := mathRound ((tp3Pips : ℚ) * zarPerPip)
    slZAR := mathRound ((slPips : ℚ) * zarPerPip)
    decimals := decimals
    confidence := overallConfidence
    technicalConfidence := min 100 technicalConfidence
    smcConfidence := min 100 smcConfidence
    sentimentConfidence := min 100 newsConfidence
    riskReward := roundTo 2 ((tp2Pips : ℚ) / (slPips : ℚ))
    reasons := reasons
    newsAnalysis := newsAnalysis
    analysisData := analysisData
    timestamp := now
    status := "active"
    concepts := ["Trendlines", "SMC/ICT", "News Sentiment"] }

/-- The `analysisData` snapshot built in `generateSignal` (lines 680-693)
before branching on the bias. -/
def signalAnalysisData (a : AnalysisState) : AnalysisData :=
  { supportResistance := a.supportResistance
    orderBlocks := a.orderBlocks.take 5
    advancedOBs := a.advancedOBs
    fvgs := (a.fvgs.filter (fun f => !f.filled)).take 5
    liquidityZones := a.liquidityZones
    breakouts := a.breakouts
    chochs := a.chochs
    bos := a.bos
    wyckoff := a.wyckoff
    premiumDiscount := a.premiumDiscount.currentZone }

/-- The news reason pushed in the bullish branch of `generateSignal`
(lines 757-765). -/
def newsReasonBull : Option NewsResult -> List Reason
  | none => []
  | some na =>
      match na.direction with
      | NewsDirection.BULLISH => [Reason.newsBullish na.sentiment]
      | NewsDirection.BEARISH => [Reason.newsBearish na.sentiment]
      | NewsDirection.NEUTRAL => [Reason.newsNeutral]

/-- The news reason pushed in the bearish branch of `generateSignal`
(lines 841-849). -/
def newsReasonBear : Option NewsResult -> List Reason
  | none => []
  | some na =>
      match na.direction with
      | NewsDirection.BEARISH => [Reason.newsBearish na.sentiment]
      | NewsDirection.BULLISH => [Reason.newsBullish na.sentiment]
      | NewsDirection.NEUTRAL => [Reason.newsNeutral]

/-- The bullish branch of `generateSignal` (lines 696-773): accumulate the
technical and SMC sub-scores with their reasons and create a BUY signal. -/
def bullishSignal (cs : List Candle) (symbol : String) (timeframe now : ℕ)
    (news : Option NewsResult) : Signal :=
  let a := computeAnalysis cs
  let current := cs.getD (cs.length - 1) dfltCandle
  let newsConfidence := newsConfidenceOf news
  let pd := a.premiumDiscount
  let inDiscount := pd.currentZone = PDZone.discount
  let supportLevel := a.supportResistance.find? (fun sr => sr.type = SRType.support)
  let hasBullishOB := a.orderBlocks.any fun ob =>
    ob.type = Side.bullish ∧ current.close ≥ ob.bottom ∧ current.close ≤ ob.top * 1.02
  let hasBullishFVG := a.fvgs.any fun fvg => fvg.type = Side.bullish ∧ !fvg.filled
  let liqSwept := a.liquidityZones.any fun lz =>
    lz.type = LiquiditySide.sellSide ∧ lz.swept
  let hasCHoCH := a.chochs.any fun ch => ch.type = Side.bullish
  let wyckoffMatch := a.wyckoff.phase = WyckoffPhase.accumulation
  let technicalConfidence :=
    (if inDiscount then 30 else 0) + (if supportLevel.isSome then 50 else 0)
  let smcConfidence :=
    (if hasBullishOB then 20 else 0) + (if hasBullishFVG then 20 else 0) +
    (if liqSwept then 20 else 0) + (if hasCHoCH then 15 else 0) +
    (if wyckoffMatch then 25 else 0)
  let reasons : List Reason :=
    (if inDiscount then [Reason.discountZone] else []) ++
    (match supportLevel with
     | some s => [Reason.supportLevel s.price s.touches]
     | none => []) ++
    (if hasBullishOB then [Reason.bullishOrderBlock] else []) ++
    (if hasBullishFVG then [Reason.bullishFVG] else []) ++
    (if liqSwept then [Reason.liquiditySwept] else []) ++
    (if hasCHoCH then [Reason.bullishCHoCH] else []) ++
    (if wyckoffMatch then [Reason.wyckoffAccumulation] else []) ++
    newsReasonBull news
  let overallConfidence :=
    (mathRound (((technicalConfidence + smcConfidence + newsConfidence : ℕ) : ℚ) / 3)).toNat
  createBuySignal symbol timeframe now current a overallConfidence
    technicalConfidence smcConfidence newsConfidence reasons news (signalAnalysisData a)

/-- The bearish branch of `generateSignal` (lines 776-857): accumulate the
technical and SMC sub-scores with their reasons and create a SELL signal. -/
def bearishSignal (cs : List Candle) (symbol : String) (timeframe now : ℕ)
    (news : Option NewsResult) : Signal :=
  let a := computeAnalysis cs
  let current := cs.getD (cs.length - 1) dfltCandle
  let newsConfidence := newsConfidenceOf news
  let pd := a.premiumDiscount
  let inPremium := pd.currentZone = PDZone.premium
  let resistanceLevel := a.supportResistance.find? (fun sr => sr.type = SRType.resistance)
  let hasBearishOB := a.orderBlocks.any fun ob =>
    ob.type = Side.bearish ∧ current.close ≤ ob.top ∧ current.close ≥ ob.bottom * 0.98
  let hasBearishFVG := a.fvgs.any fun fvg => fvg.type = Side.bearish ∧ !fvg.filled
  let liqSwept := a.liquidityZones.any fun lz =>
    lz.type = LiquiditySide.buySide ∧ lz.swept
  let hasCHoCH := a.chochs.any fun ch => ch.type = Side.bearish
  let wyckoffMatch := a.wyckoff.phase = WyckoffPhase.distribution
  let technicalConfidence :=
    (if inPremium then 30 else 0) + (if resistanceLevel.isSome then 50 else 0)
  let smcConfidence :=
    (if hasBearishOB then 20 else 0) + (if hasBearishFVG then 20 else 0) +
    (if liqSwept then 20 else 0) + (if hasCHoCH then 15 else 0) +
    (if wyckoffMatch then 25 else 0)
  let reasons : List Reason :=
    (if inPremium then [Reason.premiumZone] else []) ++
    (match resistanceLevel with
     | some r => [Reason.resistanceLevel r.price r.touches]
     | none => []) ++
    (if hasBearishOB then [Reason.bearishOrderBlock] else []) ++
    (if hasBearishFVG then [Reason.bearishFVG] else []) ++
    (if liqSwept then [Reason.liquiditySwept] else []) ++
    (if hasCHoCH then [Reason.bearishCHoCH] else []) ++
    (if wyckoffMatch then [Reason.wyckoffDistribution] else []) ++
    newsReasonBear news
  let overallConfidence :=
    (mathRound (((technicalConfidence + smcConfidence + newsConfidence : ℕ) : ℚ) / 3)).toNat
  createSellSignal symbol timeframe now current a overallConfidence
    technicalConfidence smcConfidence newsConfidence reasons news (signalAnalysisData a)

/-- `generateSignal` (src/analysis.js lines 642-860).  The sentiment fetch
raced against the 10-second timeout is embedded as the `news` parameter:
`none` is the `catch` path (fetch failure or timeout, `newsConfidence = 0`),
`some na` a successful response.  The `!structure || !pd` guard cannot fire
because `computeAnalysis` always populates both.  The bias dispatch on
`structure.trend` selects the bullish branch, the bearish branch, or no
signal; both branches always create a signal. -/
def generateSignal (cs : List Candle) (symbol : String) (timeframe : ℕ) (now : ℕ)
    (news : Option NewsResult) : Option Signal :=
  match (computeAnalysis cs).marketStructure.trend with
  | Trend.bullish => some (bullishSignal cs symbol timeframe now news)
  | Trend.bearish => some (bearishSignal cs symbol timeframe now news)
  | Trend.ranging => none

/-- `analyze` (src/analysis.js lines 45-122): fewer than 100 candles (the
JS also catches a `null`/`undefined` array, which the list type excludes)
returns `null`; otherwise the analysis phases run and `generateSignal`
produces the result.  The progress callbacks and `sleep` calls have no
effect on the returned value and are omitted. -/
def analyze (cs : List Candle) (symbol : String) (timeframe : ℕ) (now : ℕ)
    (news : Option NewsResult) : Option Signal :=
  if cs.length < 100 then none
  else generateSignal cs symbol timeframe now news

/-- Bullish keywords of `NewsAnalyzer.sentimentKeywords`. -/
def bullishKeywords : List String :=
  ["surge", "jump", "soar", "rally", "gain", "rise", "boost", "growth",
   "profit", "beat", "exceed", "strong", "record", "upgrade", "outperform",
   "buy", "positive", "bullish", "breakthrough", "success", "optimistic"]

/-- Bearish keywords of `NewsAnalyzer.sentimentKeywords`. -/
def bearishKeywords : List String :=
  ["fall", "drop", "decline", "plunge", "crash", "loss", "miss", "weak",
   "concern", "fear", "risk", "warning", "downgrade", "underperform", "sell",
   "negative", "bearish", "slump", "failure", "pessimistic", "crisis"]

/-- Volatility keywords of `NewsAnalyzer.sentimentKeywords`. -/
def volatileKeywords : List String :=
  ["volatile", "volatility", "shock", "surprise", "unexpected", "break",
   "record", "historic", "crisis", "emergency", "dramatic", "massive",
   "unprecedented", "extreme", "wild", "turbulent"]

/-- `NewsAnalyzer.analyzeSentiment` (src/unnamed/part_002 lines 490-527).
The input text is embedded as its list of lowercased word tokens; the JS
per-keyword word-boundary regex count sums, over all keywords of a list,
the number of tokens equal to that keyword, which is the number of tokens
belonging to the list.  Returns `(sentiment, volatility)`. -/
def analyzeSentiment (tokens : List String) : ℤ × ℤ :=
  let bullishScore := (tokens.filter (· ∈ bullishKeywords)).length
  let bearishScore := (tokens.filter (· ∈ bearishKeywords)).length
  let volatilityScore := (tokens.filter (· ∈ volatileKeywords)).length
  let total := bullishScore + bearishScore
  let sentiment : ℤ :=
    if total = 0 then 0
    else mathRound ((((bullishScore : ℤ) - (bearishScore : ℤ) : ℤ) : ℚ) / (total : ℚ) * 100)
  let volatility : ℤ := mathRound (min 100 ((volatilityScore : ℚ) * 20))
  (sentiment, volatility)

/-! ### Concrete candle sequences used as witnesses and counterexamples -/

/-- 15 candles whose middle bar is an outside bar: its high is above and
its low below every other bar within the radius-7 window. -/
def cs15 : List Candle :=
  (List.range 15).map fun k =>
    if k = 7 then ⟨45, 100, 1, 46⟩ else ⟨45, 50, 40, 46⟩

/-- 38 candles with three increasingly higher isolated peaks (indices 10,
20, 30) and all lows equal, so that the swing sequence is three consecutive
high swings and no low swing. -/
def cs38 : List Candle :=
  (List.range 38).map fun k =>
    if k = 10 then ⟨11, 50, 10, 12⟩
    else if k = 20 then ⟨11, 60, 10, 12⟩
    else if k = 30 then ⟨11, 70, 10, 12⟩
    else ⟨11, 13, 10, 12⟩

/-- 150 strictly monotonically increasing candles: every field of bar `k+1`
is strictly above the same field of bar `k`. -/
def cs150 : List Candle :=
  (List.range 150).map fun k =>
    ⟨((4 * k + 1 : ℕ) : ℚ), ((4 * k + 3 : ℕ) : ℚ), ((4 * k : ℕ) : ℚ), ((4 * k + 2 : ℕ) : ℚ)⟩

/-- 100 candles with three increasingly higher isolated peaks (indices 20,
50, 80) over a flat base: the trend comes out bullish and a BUY signal is
generated. -/
def csB : List Candle :=
  (List.range 100).map fun k =>
    if k = 20 then ⟨11, 50, 10, 12⟩
    else if k = 50 then ⟨11, 60, 10, 12⟩
    else if k = 80 then ⟨11, 70, 10, 12⟩
    else ⟨11, 13, 10, 12⟩

/-- A successful news response with bullish direction and sentiment 80. -/
def newsB : NewsResult := ⟨NewsDirection.BULLISH, 80⟩

/-- 100 candles whose last close sits exactly on the stored 61.8% level
(range 10..110, fib618 = 71.8 = 359/5). -/
def cs100pd : List Candle :=
  (List.range 100).map fun k =>
    if k = 0 then ⟨50, 110, 10, 50⟩
    else if k = 99 then ⟨50, 75, 40, 359/5⟩
    else ⟨50, 60, 40, 50⟩

/-- 100 identical candles: every extremum is a tie, so no swing exists. -/
def cs100const : List Candle := List.replicate 100 ⟨11, 13, 10, 12⟩

/-- Four candles holding one bullish fair value gap at index 1 (gap 10..20)
that is filled by the fourth candle (low 12 ≤ midpoint 15). -/
def cs4fvg : List Candle :=
  [⟨6, 10, 5, 9⟩, ⟨12, 24, 11, 23⟩, ⟨22, 26, 20, 25⟩, ⟨14, 16, 12, 15⟩]

/-- A trailing extension for `cs4fvg` that creates no further gap. -/
def cs4ext : List Candle := [⟨15, 30, 14, 29⟩]

/-! ### Generic helper lemmas -/

lemma mem_foldr_append {α β : Type} {l : List β} {f : β → List α} {x : α} :
    x ∈ l.foldr (fun k acc => f k ++ acc) [] ↔ ∃ k ∈ l, x ∈ f k := by
  induction l with
  | nil => simp
  | cons b bs ih => simp [ih]

lemma foldr_append_eq_nil {α β : Type} {l : List β} {f : β → List α}
    (h : ∀ k ∈ l, f k = []) : l.foldr (fun k acc => f k ++ acc) [] = [] := by
  induction l with
  | nil => rfl
  | cons b bs ih =>
      simp only [List.foldr_cons, h b (List.mem_cons_self b bs)]
      exact ih fun k hk => h k (List.mem_cons_of_mem b hk)

lemma hhllCounts_of_short {sw : List Swing} (h : sw.length < 3) :
    hhllCounts sw = (0, 0) := by
  have hdrop : sw.drop 2 = [] := by
    rw [List.drop_eq_nil_iff]
    omega
  unfold hhllCounts
  rw [hdrop, List.zip_nil_right]
  rfl

lemma computeAnalysis_marketStructure (cs : List Candle) :
    (computeAnalysis cs).marketStructure = identifyMarketStructure cs := rfl

lemma generateSignal_ranging {cs : List Candle} (symbol : String) (timeframe now : ℕ)
    (news : Option NewsResult)
    (h : (computeAnalysis cs).marketStructure.trend = Trend.ranging) :
    generateSignal cs symbol timeframe now news = none := by
  unfold generateSignal
  rw [h]

lemma identifyMarketStructure_trend_ranging {cs : List Candle}
    (h : hhllCounts (findSwingPoints cs) = (0, 0)) :
    (identifyMarketStructure cs).trend = Trend.ranging := by
  simp [identifyMarketStructure, h]

/-! ### C1 -/

/-- C1: for every candle sequence with fewer than 100 candles (the empty
sequence included; a JS `null` input takes the same early return),
`SMCAnalyzer.analyze` returns `null` ("no signal") and, being a total
function of its input, throws no exception. -/
theorem c1_insufficient_candles (cs : List Candle) (symbol : String) (timeframe now : ℕ)
    (news : Option NewsResult) (h : cs.length < 100) :
    analyze cs symbol timeframe now news = none := by
  simp [analyze, h]

theorem c1_witness :
    (List.replicate 99 dfltCandle).length < 100 ∧
    analyze (List.replicate 99 dfltCandle) "EURUSD" 300 0 none = none :=
  ⟨by simp, c1_insufficient_candles (List.replicate 99 dfltCandle) "EURUSD" 300 0 none (by simp)⟩

/-! ### C2 -/

/-- A candle series in which every field of each bar is strictly above the
same field of the previous bar. -/
def StrictlyAscending (cs : List Candle) : Prop :=
  ∀ i < cs.length - 1,
    (cs.getD i dfltCandle).open_ < (cs.getD (i+1) dfltCandle).open_ ∧
    (cs.getD i dfltCandle).high < (cs.getD (i+1) dfltCandle).high ∧
    (cs.getD i dfltCandle).low < (cs.getD (i+1) dfltCandle).low ∧
    (cs.getD i dfltCandle).close < (cs.getD (i+1) dfltCandle).close

instance (cs : List Candle) : Decidable (StrictlyAscending cs) := by
  unfold StrictlyAscending
  exact Nat.decidableBallLT _ _

/-- C2 counterexample: `cs150` is a strictly monotonically increasing
series of 150 bars, yet the computed trend is `ranging`, not `bullish`:
strict-extremum swing detection finds no swing at all in a monotone
series, so higher-high and lower-low counts are both zero. -/
theorem c2_counterexample :
    cs150.length = 150 ∧ StrictlyAscending cs150 ∧
    (identifyMarketStructure cs150).trend = Trend.ranging := by
  refine ⟨by decide, by decide, by decide⟩

/-- C2 amended: for every strictly monotonically increasing candle series
(of any length, the 150-bar scenario included), the swing detector reports
no swing point, `MarketStructure.trend` is `ranging` (not `bullish`), and
`analyze` emits no signal at all. -/
theorem c2_amended (cs : List Candle) (symbol : String) (timeframe now : ℕ)
    (news : Option NewsResult) (h : StrictlyAscending cs) :
    findSwingPoints cs = [] ∧
    (identifyMarketStructure cs).trend = Trend.ranging ∧
    analyze cs symbol timeframe now news = none := by
  have hsw : findSwingPoints cs = [] := by
    unfold findSwingPoints
    apply foldr_append_eq_nil
    intro k hk
    rw [List.mem_range] at hk
    have hhigh : isSwingHigh cs (k + 7) = false := by
      rw [Bool.eq_false_iff]
      intro hflag
      unfold isSwingHigh at hflag
      rw [List.all_eq_true] at hflag
      have h0 := hflag 0 (by simp)
      simp only [Bool.and_eq_true, decide_eq_true_eq] at h0
      have hasc := (h (k + 7) (by omega)).2.1
      have h0r := h0.2
      have e : k + 7 + (0 + 1) = k + 7 + 1 := by omega
      rw [e] at h0r
      exact absurd hasc (not_lt.mpr (le_of_lt h0r))
    have hlow : isSwingLow cs (k + 7) = false := by
      rw [Bool.eq_false_iff]
      intro hflag
      unfold isSwingLow at hflag
      rw [List.all_eq_true] at hflag
      have h0 := hflag 0 (by simp)
      simp only [Bool.and_eq_true, decide_eq_true_eq] at h0
      have hasc := (h (k + 6) (by omega)).2.2.1
      have h0l := h0.1
      have e : k + 7 - (0 + 1) = k + 6 := by omega
      rw [e] at h0l
      have e2 : k + 6 + 1 = k + 7 := by omega
      rw [e2] at hasc
      exact absurd hasc (not_lt.mpr (le_of_lt h0l))
    unfold swingAt
    rw [hhigh, hlow]
    rfl
  have htrend : (identifyMarketStructure cs).trend = Trend.ranging := by
    apply identifyMarketStructure_trend_ranging
    rw [hsw]
    rfl
  refine ⟨hsw, htrend, ?_⟩
  unfold analyze
  by_cases hlen : cs.length < 100
  · simp [hlen]
  · simp only [hlen, if_false]
    exact generateSignal_ranging symbol timeframe now news
      (by rw [computeAnalysis_marketStructure]; exact htrend)

theorem c2_witness :
    findSwingPoints cs150 = [] ∧
    (identifyMarketStructure cs150).trend = Trend.ranging ∧
    analyze cs150 "EURUSD" 300 0 none = none :=
  c2_amended cs150 "EURUSD" 300 0 none (by decide)

/-! ### C10 -/

/-- C10: for every candle sequence of at least 100 candles whose swing
sequence has fewer than 3 elements, the structure classifier produces
`higherHighs = 0`, `lowerLows = 0` and trend `ranging`, and consequently
`analyze` returns `null` (no signal is emitted). -/
theorem c10_few_swings (cs : List Candle) (symbol : String) (timeframe now : ℕ)
    (news : Option NewsResult) (h100 : 100 ≤ cs.length)
    (hsw : (findSwingPoints cs).length < 3) :
    (identifyMarketStructure cs).higherHighs = 0 ∧
    (identifyMarketStructure cs).lowerLows = 0 ∧
    (identifyMarketStructure cs).trend = Trend.ranging ∧
    analyze cs symbol timeframe now news = none := by
  have hc : hhllCounts (findSwingPoints cs) = (0, 0) := hhllCounts_of_short hsw
  have htrend : (identifyMarketStructure cs).trend = Trend.ranging :=
    identifyMarketStructure_trend_ranging hc
  refine ⟨by simp [identifyMarketStructure, hc], by simp [identifyMarketStructure, hc],
    htrend, ?_⟩
  unfold analyze
  simp only [Nat.not_lt.mpr h100, if_false]
  exact generateSignal_ranging symbol timeframe now news
    (by rw [computeAnalysis_marketStructure]; exact htrend)

theorem c10_witness :
    (identifyMarketStructure cs100const).higherHighs = 0 ∧
    (identifyMarketStructure cs100const).lowerLows = 0 ∧
    (identifyMarketStructure cs100const).trend = Trend.ranging ∧
    analyze cs100const "EURUSD" 300 0 none = none :=
  c10_few_swings cs100const "EURUSD" 300 0 none (by decide) (by decide)

/-! ### C5 -/

lemma mem_findSwingPoints {cs : List Candle} {s : Swing} :
    s ∈ findSwingPoints cs ↔ ∃ k < cs.length - 14, s ∈ swingAt cs (k + 7) := by
  unfold findSwingPoints
  rw [mem_foldr_append]
  simp

lemma mem_swingAt {cs : List Candle} {i : ℕ} {s : Swing} (h : s ∈ swingAt cs i) :
    (isSwingHigh cs i = true ∧ s = ⟨SwingType.high, (cs.getD i dfltCandle).high, i⟩) ∨
    (isSwingLow cs i = true ∧ s = ⟨SwingType.low, (cs.getD i dfltCandle).low, i⟩) := by
  unfold swingAt at h
  rw [List.mem_append] at h
  rcases h with h | h
  · left
    by_cases hf : isSwingHigh cs i = true
    · rw [if_pos hf] at h
      exact ⟨hf, List.mem_singleton.mp h⟩
    · rw [if_neg hf] at h
      exact absurd h (List.not_mem_nil s)
  · right
    by_cases hf : isSwingLow cs i = true
    · rw [if_pos hf] at h
      exact ⟨hf, List.mem_singleton.mp h⟩
    · rw [if_neg hf] at h
      exact absurd h (List.not_mem_nil s)

lemma isSwingHigh_spec {cs : List Candle} {i : ℕ} (h : isSwingHigh cs i = true) :
    ∀ j < 7, (cs.getD (i - (j+1)) dfltCandle).high < (cs.getD i dfltCandle).high ∧
             (cs.getD (i + (j+1)) dfltCandle).high < (cs.getD i dfltCandle).high := by
  intro j hj
  unfold isSwingHigh at h
  rw [List.all_eq_true] at h
  simpa using h j (List.mem_range.mpr hj)

lemma isSwingLow_spec {cs : List Candle} {i : ℕ} (h : isSwingLow cs i = true) :
    ∀ j < 7, (cs.getD i dfltCandle).low < (cs.getD (i - (j+1)) dfltCandle).low ∧
             (cs.getD i dfltCandle).low < (cs.getD (i + (j+1)) dfltCandle).low := by
  intro j hj
  unfold isSwingLow at h
  rw [List.all_eq_true] at h
  simpa using h j (List.mem_range.mpr hj)

/-- The property the spec ascribes to a reported swing point: its index has
a full radius-7 window inside the sequence, its price is the candle's
high/low there, and that price is a strict extremum over the window (any
tie disqualifies, which strictness subsumes). -/
def IsStrictLocalExtremum (cs : List Candle) (s : Swing) : Prop :=
  7 ≤ s.index ∧ s.index + 7 < cs.length ∧
  (s.type = SwingType.high →
    s.price = (cs.getD s.index dfltCandle).high ∧
    ∀ j < 7, (cs.getD (s.index - (j+1)) dfltCandle).high < s.price ∧
             (cs.getD (s.index + (j+1)) dfltCandle).high < s.price) ∧
  (s.type = SwingType.low →
    s.price = (cs.getD s.index dfltCandle).low ∧
    ∀ j < 7, s.price < (cs.getD (s.index - (j+1)) dfltCandle).low ∧
             s.price < (cs.getD (s.index + (j+1)) dfltCandle).low)

instance (cs : List Candle) (s : Swing) : Decidable (IsStrictLocalExtremum cs s) := by
  unfold IsStrictLocalExtremum
  infer_instance

/-- C5 counterexample: in `cs15` the outside bar at index 7 is reported
both as a high swing and as a low swing — two SwingPoints of different
types at the same candle index, contradicting the claim. -/
theorem c5_counterexample :
    findSwingPoints cs15 =
      [⟨SwingType.high, 100, 7⟩, ⟨SwingType.low, 1, 7⟩] ∧
    (Swing.mk SwingType.high 100 7).index = (Swing.mk SwingType.low 1 7).index ∧
    (Swing.mk SwingType.high 100 7).type ≠ (Swing.mk SwingType.low 1 7).type := by
  decide

/-- C5 amended: the swing detector never outputs two SwingPoints of the
same type at the same candle index (an outside bar can however yield a
high and a low SwingPoint at one index), and every output SwingPoint's
price is a strict local extremum over the symmetric radius-7 window, a tie
with any neighbour disqualifying the candidate. -/
theorem c5_amended (cs : List Candle) (s t : Swing)
    (hs : s ∈ findSwingPoints cs) (ht : t ∈ findSwingPoints cs)
    (hidx : s.index = t.index) (htype : s.type = t.type) :
    s = t ∧ IsStrictLocalExtremum cs s := by
  obtain ⟨k, hk, hsk⟩ := mem_findSwingPoints.mp hs
  obtain ⟨k', hk', htk⟩ := mem_findSwingPoints.mp ht
  have hsidx : s.index = k + 7 := by
    rcases mem_swingAt hsk with ⟨_, rfl⟩ | ⟨_, rfl⟩ <;> rfl
  have htidx : t.index = k' + 7 := by
    rcases mem_swingAt htk with ⟨_, rfl⟩ | ⟨_, rfl⟩ <;> rfl
  have hkk : k' = k := by omega
  subst hkk
  constructor
  · rcases mem_swingAt hsk with ⟨hfs, hse⟩ | ⟨hfs, hse⟩ <;>
      rcases mem_swingAt htk with ⟨hft, hte⟩ | ⟨hft, hte⟩ <;>
      subst hse <;> subst hte <;> first | rfl | (exact absurd htype (by simp))
  · rcases mem_swingAt hsk with ⟨hfs, hse⟩ | ⟨hfs, hse⟩ <;> subst hse
    · exact ⟨by omega, by omega,
        fun _ => ⟨rfl, isSwingHigh_spec hfs⟩,
        fun hlow => absurd hlow (by simp)⟩
    · exact ⟨by omega, by omega,
        fun hhigh => absurd hhigh (by simp),
        fun _ => ⟨rfl, isSwingLow_spec hfs⟩⟩

theorem c5_witness :
    (Swing.mk SwingType.high 50 10 = Swing.mk SwingType.high 50 10) ∧
    IsStrictLocalExtremum cs38 (Swing.mk SwingType.high 50 10) :=
  c5_amended cs38 ⟨SwingType.high, 50, 10⟩ ⟨SwingType.high, 50, 10⟩
    (by decide) (by decide) rfl rfl

/-! ### C6 -/

lemma hhllCounts_foldl (l : List (Swing × Swing)) (a b : ℕ) :
    l.foldl (fun acc pc =>
      ((if pc.2.type = SwingType.high ∧ pc.2.price > pc.1.price then acc.1 + 1 else acc.1),
       (if pc.2.type = SwingType.low ∧ pc.2.price < pc.1.price then acc.2 + 1 else acc.2)))
      (a, b) =
    (a + l.countP (fun pc => decide (pc.2.type = SwingType.high ∧ pc.2.price > pc.1.price)),
     b + l.countP (fun pc => decide (pc.2.type = SwingType.low ∧ pc.2.price < pc.1.price))) := by
  induction l generalizing a b with
  | nil => simp
  | cons x xs ih =>
      simp only [List.foldl_cons, List.countP_cons, ih]
      by_cases h1 : x.2.type = SwingType.high ∧ x.2.price > x.1.price <;>
        by_cases h2 : x.2.type = SwingType.low ∧ x.2.price < x.1.price <;>
        simp [h1, h2] <;> omega

/-- C6 counterexample: `cs38` produces three consecutive high swings with
increasing prices.  The classifier increments the higher-high count at the
third one (its price exceeds the swing two positions earlier) even though
the intervening swing is not of the opposite type, so the counts differ
from the spec's same-type-pair-separated-by-one-opposite-swing rule
(`hhllCountsSpec`), which would count nothing here. -/
theorem c6_counterexample :
    findSwingPoints cs38 =
      [⟨SwingType.high, 50, 10⟩, ⟨SwingType.high, 60, 20⟩, ⟨SwingType.high, 70, 30⟩] ∧
    hhllCounts (findSwingPoints cs38) = (1, 0) ∧
    hhllCountsSpec (findSwingPoints cs38) = (0, 0) := by
  decide

/-- C6 amended: the classifier increments the higher-high count for every
position `i ≥ 2` such that swing `i` is a high whose price strictly exceeds
the price of swing `i-2`, regardless of the type of swing `i-2` and of the
intervening swing `i-1`; symmetrically for the lower-low count. -/
theorem c6_amended (swings : List Swing) :
    hhllCounts swings =
      ((swings.zip (swings.drop 2)).countP
         (fun pc => decide (pc.2.type = SwingType.high ∧ pc.2.price > pc.1.price)),
       (swings.zip (swings.drop 2)).countP
         (fun pc => decide (pc.2.type = SwingType.low ∧ pc.2.price < pc.1.price))) := by
  unfold hhllCounts
  rw [hhllCounts_foldl]
  simp

/-! ### C7 -/

lemma calcPD_zone (cs : List Candle) :
    (calculatePremiumDiscount cs).currentZone =
      (if (cs.getD (cs.length - 1) dfltCandle).close ≥
            (calculatePremiumDiscount cs).levels.fib618
       then PDZone.premium
       else if (cs.getD (cs.length - 1) dfltCandle).close ≤
                 (calculatePremiumDiscount cs).levels.fib382
       then PDZone.discount
       else PDZone.equilibrium) := rfl

lemma calcPD_fib618 (cs : List Candle) :
    (calculatePremiumDiscount cs).levels.fib618 =
      (calculatePremiumDiscount cs).levels.high -
        ((calculatePremiumDiscount cs).levels.high -
          (calculatePremiumDiscount cs).levels.low) * 0.382 := rfl

lemma calcPD_fib382 (cs : List Candle) :
    (calculatePremiumDiscount cs).levels.fib382 =
      (calculatePremiumDiscount cs).levels.high -
        ((calculatePremiumDiscount cs).levels.high -
          (calculatePremiumDiscount cs).levels.low) * 0.618 := rfl

lemma zoneIf_premium_iff {c f618 f382 : ℚ} :
    ((if c ≥ f618 then PDZone.premium
      else if c ≤ f382 then PDZone.discount else PDZone.equilibrium) = PDZone.premium) ↔
    f618 ≤ c := by
  split_ifs with h1 h2 <;> simp_all

lemma zoneIf_discount_iff {c f618 f382 : ℚ} :
    ((if c ≥ f618 then PDZone.premium
      else if c ≤ f382 then PDZone.discount else PDZone.equilibrium) = PDZone.discount) ↔
    (c ≤ f382 ∧ ¬ f618 ≤ c) := by
  split_ifs with h1 h2 <;> simp_all

lemma zoneIf_equilibrium_iff {c f618 f382 : ℚ} :
    ((if c ≥ f618 then PDZone.premium
      else if c ≤ f382 then PDZone.discount else PDZone.equilibrium) = PDZone.equilibrium) ↔
    (f382 < c ∧ c < f618) := by
  split_ifs with h1 h2
  · simp [not_lt.mpr h1]
  · simp [not_lt.mpr h2]
  · simp [not_le.mp h1, not_le.mp h2]

/-- The checked premium/discount contract: the classification is exactly
one of the three zones and is reproduced by comparing the last close with
the stored `fib618`/`fib382` levels, boundaries included on the premium
and discount sides; when the stored 100-candle range is non-degenerate the
three zones partition it exhaustively and without overlap. -/
def C7Property (cs : List Candle) : Prop :=
  let pd := calculatePremiumDiscount cs
  let current := (cs.getD (cs.length - 1) dfltCandle).close
  (pd.currentZone = PDZone.premium ∨ pd.currentZone = PDZone.discount ∨
   pd.currentZone = PDZone.equilibrium) ∧
  (pd.currentZone = PDZone.premium ↔ pd.levels.fib618 ≤ current) ∧
  (pd.currentZone = PDZone.discount ↔
    current ≤ pd.levels.fib382 ∧ ¬ pd.levels.fib618 ≤ current) ∧
  (pd.currentZone = PDZone.equilibrium ↔
    pd.levels.fib382 < current ∧ current < pd.levels.fib618) ∧
  (pd.levels.low < pd.levels.high →
    pd.levels.low ≤ pd.levels.fib382 ∧ pd.levels.fib382 < pd.levels.fib618 ∧
    pd.levels.fib618 ≤ pd.levels.high ∧
    ∀ p : ℚ, pd.levels.low ≤ p → p ≤ pd.levels.high →
      ((pd.levels.fib618 ≤ p ∧ ¬ p ≤ pd.levels.fib382 ∧
          ¬ (pd.levels.fib382 < p ∧ p < pd.levels.fib618)) ∨
       (p ≤ pd.levels.fib382 ∧ ¬ pd.levels.fib618 ≤ p ∧
          ¬ (pd.levels.fib382 < p ∧ p < pd.levels.fib618)) ∨
       ((pd.levels.fib382 < p ∧ p < pd.levels.fib618) ∧
          ¬ pd.levels.fib618 ≤ p ∧ ¬ p ≤ pd.levels.fib382)))

/-- C7 counterexample: in `cs100pd` the last close (359/5 = 71.8) sits
exactly on the stored 61.8% level (high 110, low 10, `fib618 =
110 - 100*0.382 = 71.8`), i.e. it is not strictly above that level, yet
`currentZone` is `premium` — the source compares with `>=`, so the
claim's strict "above ⇒ premium, otherwise equilibrium" recomputation
fails at the boundary. -/
theorem c7_counterexample :
    (cs100pd.getD (cs100pd.length - 1) dfltCandle).close =
      (calculatePremiumDiscount cs100pd).levels.fib618 ∧
    (calculatePremiumDiscount cs100pd).currentZone = PDZone.premium := by
  decide

/-- C7 amended: for every candle sequence of at least 100 candles the
computed `currentZone` is exactly one of premium, discount and
equilibrium, and matches the recomputation from the last close against
the stored levels with inclusive boundaries (at or above the 61.8% level
⇒ premium, at or below the 38.2% level and not in the premium region ⇒
discount, strictly between the levels ⇒ equilibrium); whenever the
stored 100-candle high/low range is non-degenerate the three zones
partition it exhaustively and without overlap. -/
theorem c7_amended (cs : List Candle) (h100 : 100 ≤ cs.length) : C7Property cs := by
  unfold C7Property
  refine ⟨?_, ?_, ?_, ?_, ?_⟩
  · cases (calculatePremiumDiscount cs).currentZone <;> simp
  · rw [calcPD_zone]
    exact zoneIf_premium_iff
  · rw [calcPD_zone]
    exact zoneIf_discount_iff
  · rw [calcPD_zone]
    exact zoneIf_equilibrium_iff
  · intro hlt
    have e1 := calcPD_fib618 cs
    have e2 := calcPD_fib382 cs
    refine ⟨by rw [e2]; linarith, by rw [e1, e2]; linarith, by rw [e1]; linarith, ?_⟩
    intro p _ _
    have hlt' : (calculatePremiumDiscount cs).levels.fib382 <
        (calculatePremiumDiscount cs).levels.fib618 := by rw [e1, e2]; linarith
    by_cases hp1 : (calculatePremiumDiscount cs).levels.fib618 ≤ p
    · exact Or.inl ⟨hp1, fun hc => absurd (le_trans hp1 hc) (not_le.mpr hlt'),
        fun hc => absurd hp1 (not_le.mpr hc.2)⟩
    · by_cases hp2 : p ≤ (calculatePremiumDiscount cs).levels.fib382
      · exact Or.inr (Or.inl ⟨hp2, hp1, fun hc => absurd hp2 (not_le.mpr hc.1)⟩)
      · exact Or.inr (Or.inr ⟨⟨not_le.mp hp2, not_le.mp hp1⟩, hp1, hp2⟩)

theorem c7_witness : C7Property cs100pd := c7_amended cs100pd (by decide)

/-! ### C9 -/

lemma mathRound_le_of_le {q : ℚ} {n : ℤ} (h : q ≤ (n : ℚ)) : mathRound q ≤ n := by
  unfold mathRound
  have h2 : ⌊q + 1/2⌋ < n + 1 := by
    rw [Int.floor_lt]
    push_cast
    linarith
  omega

lemma le_mathRound_of_le {q : ℚ} {n : ℤ} (h : (n : ℚ) ≤ q) : n ≤ mathRound q := by
  unfold mathRound
  exact Int.le_floor.mpr (by push_cast; linarith)

/-- C9: for every input text (embedded as its token list), the
keyword-based sentiment analyzer returns a sentiment score in -100..100
and a volatility score in 0..100, matching the `NewsSentiment` field
ranges. -/
theorem c9_sentiment_ranges (tokens : List String) :
    -100 ≤ (analyzeSentiment tokens).1 ∧ (analyzeSentiment tokens).1 ≤ 100 ∧
    0 ≤ (analyzeSentiment tokens).2 ∧ (analyzeSentiment tokens).2 ≤ 100 := by
  have hfst : (analyzeSentiment tokens).1 =
      (if (tokens.filter (· ∈ bullishKeywords)).length +
          (tokens.filter (· ∈ bearishKeywords)).length = 0 then (0 : ℤ)
       else mathRound
         (((((tokens.filter (· ∈ bullishKeywords)).length : ℤ) -
             ((tokens.filter (· ∈ bearishKeywords)).length : ℤ) : ℤ) : ℚ) /
          (((tokens.filter (· ∈ bullishKeywords)).length +
            (tokens.filter (· ∈ bearishKeywords)).length : ℕ) : ℚ) * 100)) := rfl
  have hsnd : (analyzeSentiment tokens).2 =
      mathRound (min 100 (((tokens.filter (· ∈ volatileKeywords)).length : ℚ) * 20)) := rfl
  rw [hfst, hsnd]
  set b := (tokens.filter (· ∈ bullishKeywords)).length with hb
  set r := (tokens.filter (· ∈ bearishKeywords)).length with hr
  set v := (tokens.filter (· ∈ volatileKeywords)).length with hv
  have hvol0 : (0 : ℤ) ≤ mathRound (min 100 ((v : ℚ) * 20)) := by
    apply le_mathRound_of_le
    push_cast
    exact le_min (by norm_num) (by positivity)
  have hvol1 : mathRound (min 100 ((v : ℚ) * 20)) ≤ 100 := by
    apply mathRound_le_of_le
    push_cast
    exact min_le_left _ _
  refine ⟨?_, ?_, hvol0, hvol1⟩
  · split_ifs with h0
    · norm_num
    · apply le_mathRound_of_le
      have hT : (0 : ℚ) < ((b + r : ℕ) : ℚ) := by
        exact_mod_cast Nat.pos_of_ne_zero h0
      have h1 : (-1 : ℚ) ≤ (((b : ℤ) - (r : ℤ) : ℤ) : ℚ) / ((b + r : ℕ) : ℚ) := by
        rw [le_div_iff hT]
        push_cast
        have := Nat.cast_nonneg (α := ℚ) b
        linarith
      have h2 := mul_le_mul_of_nonneg_right h1 (by norm_num : (0:ℚ) ≤ 100)
      push_cast
      push_cast at h2
      linarith
  · split_ifs with h0
    · norm_num
    · apply mathRound_le_of_le
      have hT : (0 : ℚ) < ((b + r : ℕ) : ℚ) := by
        exact_mod_cast Nat.pos_of_ne_zero h0
      have h1 : (((b : ℤ) - (r : ℤ) : ℤ) : ℚ) / ((b + r : ℕ) : ℚ) ≤ 1 := by
        rw [div_le_one hT]
        push_cast
        have := Nat.cast_nonneg (α := ℚ) r
        linarith
      have h2 := mul_le_mul_of_nonneg_right h1 (by norm_num : (0:ℚ) ≤ 100)
      push_cast
      push_cast at h2
      linarith

/-! ### C8 -/

lemma mem_detectFVGsAll {cs : List Candle} {g : FVG} :
    g ∈ detectFVGsAll cs ↔ ∃ k < cs.length - 2, g ∈ gapAt cs (k + 1) := by
  unfold detectFVGsAll
  rw [mem_foldr_append]
  simp

lemma mem_gapAt {cs : List Candle} {i : ℕ} {g : FVG} (h : g ∈ gapAt cs i) :
    ((cs.getD (i-1) dfltCandle).high < (cs.getD (i+1) dfltCandle).low ∧
      g = ⟨Side.bullish, (cs.getD (i+1) dfltCandle).low, (cs.getD (i-1) dfltCandle).high, i,
           (cs.getD (i+1) dfltCandle).low - (cs.getD (i-1) dfltCandle).high,
           checkFVGFilled cs i Side.bullish (cs.getD (i-1) dfltCandle).high
             (cs.getD (i+1) dfltCandle).low⟩) ∨
    ((cs.getD (i-1) dfltCandle).low > (cs.getD (i+1) dfltCandle).high ∧
      g = ⟨Side.bearish, (cs.getD (i-1) dfltCandle).low, (cs.getD (i+1) dfltCandle).high, i,
           (cs.getD (i-1) dfltCandle).low - (cs.getD (i+1) dfltCandle).high,
           checkFVGFilled cs i Side.bearish (cs.getD (i+1) dfltCandle).high
             (cs.getD (i-1) dfltCandle).low⟩) := by
  unfold gapAt at h
  rw [List.mem_append] at h
  rcases h with h | h
  · left
    by_cases hc : (cs.getD (i-1) dfltCandle).high < (cs.getD (i+1) dfltCandle).low
    · rw [if_pos hc] at h
      exact ⟨hc, List.mem_singleton.mp h⟩
    · rw [if_neg hc] at h
      exact absurd h (List.not_mem_nil g)
  · right
    by_cases hc : (cs.getD (i-1) dfltCandle).low > (cs.getD (i+1) dfltCandle).high
    · rw [if_pos hc] at h
      exact ⟨hc, List.mem_singleton.mp h⟩
    · rw [if_neg hc] at h
      exact absurd h (List.not_mem_nil g)

lemma bullish_mem_gapAt {cs : List Candle} {i : ℕ}
    (hc : (cs.getD (i-1) dfltCandle).high < (cs.getD (i+1) dfltCandle).low) :
    (⟨Side.bullish, (cs.getD (i+1) dfltCandle).low, (cs.getD (i-1) dfltCandle).high, i,
      (cs.getD (i+1) dfltCandle).low - (cs.getD (i-1) dfltCandle).high,
      checkFVGFilled cs i Side.bullish (cs.getD (i-1) dfltCandle).high
        (cs.getD (i+1) dfltCandle).low⟩ : FVG) ∈ gapAt cs i := by
  simp only [gapAt, List.mem_append]
  left
  rw [if_pos hc]
  exact List.mem_singleton.mpr rfl

lemma bearish_mem_gapAt {cs : List Candle} {i : ℕ}
    (hc : (cs.getD (i-1) dfltCandle).low > (cs.getD (i+1) dfltCandle).high) :
    (⟨Side.bearish, (cs.getD (i-1) dfltCandle).low, (cs.getD (i+1) dfltCandle).high, i,
      (cs.getD (i-1) dfltCandle).low - (cs.getD (i+1) dfltCandle).high,
      checkFVGFilled cs i Side.bearish (cs.getD (i+1) dfltCandle).high
        (cs.getD (i-1) dfltCandle).low⟩ : FVG) ∈ gapAt cs i := by
  simp only [gapAt, List.mem_append]
  right
  rw [if_pos hc]
  exact List.mem_singleton.mpr rfl

lemma checkFVGFilled_extend {cs : List Candle} (ext : List Candle) {i : ℕ} {t : Side}
    {b tp : ℚ} (h : checkFVGFilled cs i t b tp = true) :
    checkFVGFilled (cs ++ ext) i t b tp = true := by
  unfold checkFVGFilled at h ⊢
  rw [List.any_eq_true] at h ⊢
  obtain ⟨k, hk, hcond⟩ := h
  rw [List.mem_range] at hk
  have hidx : i + 1 + k < cs.length := by omega
  refine ⟨k, List.mem_range.mpr (by rw [List.length_append]; omega), ?_⟩
  rw [List.getD_append _ _ _ _ hidx]
  exact hcond

/-- C8: the FVG `filled` flag is monotonic under input extension — every
fair value gap the detector marks filled is, after extending the candle
sequence with arbitrary trailing candles, detected again at the same index
with the same type and endpoints and marked filled again; moreover every
gap the re-run detects at that index with that type is marked filled (the
flag never flips back to false). -/
theorem c8_fvg_filled_monotonic (cs ext : List Candle) (g : FVG)
    (hg : g ∈ detectFairValueGaps cs) (hf : g.filled = true) :
    (∃ gNew ∈ detectFVGsAll (cs ++ ext),
        gNew.index = g.index ∧ gNew.type = g.type ∧ gNew.top = g.top ∧
        gNew.bottom = g.bottom ∧ gNew.filled = true) ∧
    (∀ gNew ∈ detectFVGsAll (cs ++ ext),
        gNew.index = g.index → gNew.type = g.type → gNew.filled = true) := by
  have hg' : g ∈ detectFVGsAll cs := by
    unfold detectFairValueGaps lastN at hg
    exact List.drop_subset _ _ hg
  obtain ⟨k, hk, hgk⟩ := mem_detectFVGsAll.mp hg'
  have hkc : k < cs.length := by omega
  have hkc2 : k + 1 + 1 < cs.length := by omega
  have hprev : (cs ++ ext).getD (k + 1 - 1) dfltCandle = cs.getD (k + 1 - 1) dfltCandle :=
    List.getD_append _ _ _ _ (by omega)
  have hnext : (cs ++ ext).getD (k + 1 + 1) dfltCandle = cs.getD (k + 1 + 1) dfltCandle :=
    List.getD_append _ _ _ _ (by omega)
  have hlen : k < (cs ++ ext).length - 2 := by
    rw [List.length_append]
    omega
  rcases mem_gapAt hgk with ⟨hc, hge⟩ | ⟨hc, hge⟩
  · -- bullish gap at index k+1
    have hfilled : checkFVGFilled cs (k+1) Side.bullish
        (cs.getD (k + 1 - 1) dfltCandle).high (cs.getD (k + 1 + 1) dfltCandle).low = true := by
      rw [hge] at hf
      exact hf
    have hc' : ((cs ++ ext).getD (k + 1 - 1) dfltCandle).high <
        ((cs ++ ext).getD (k + 1 + 1) dfltCandle).low := by
      rw [hprev, hnext]
      exact hc
    have hfilled' : checkFVGFilled (cs ++ ext) (k+1) Side.bullish
        ((cs ++ ext).getD (k + 1 - 1) dfltCandle).high
        ((cs ++ ext).getD (k + 1 + 1) dfltCandle).low = true := by
      rw [hprev, hnext]
      exact checkFVGFilled_extend ext hfilled
    constructor
    · refine ⟨_, mem_detectFVGsAll.mpr ⟨k, hlen, bullish_mem_gapAt hc'⟩, ?_, ?_, ?_, ?_, ?_⟩
      · rw [hge]
      · rw [hge]
      · rw [hge, hnext]
      · rw [hge, hprev]
      · exact hfilled'
    · intro gNew hmem hidx htype
      obtain ⟨k', hk', hgk'⟩ := mem_detectFVGsAll.mp hmem
      have hgidx : g.index = k + 1 := by rw [hge]
      rcases mem_gapAt hgk' with ⟨hc2, hge2⟩ | ⟨hc2, hge2⟩
      · have hk'' : k' = k := by
          have : gNew.index = k' + 1 := by rw [hge2]
          omega
        subst hk''
        rw [hge2, hprev, hnext]
        exact checkFVGFilled_extend ext hfilled
      · exfalso
        have h1 : gNew.type = Side.bearish := by rw [hge2]
        have h2 : g.type = Side.bullish := by rw [hge]
        rw [htype, h2] at h1
        exact Side.noConfusion h1
  · -- bearish gap at index k+1
    have hfilled : checkFVGFilled cs (k+1) Side.bearish
        (cs.getD (k + 1 + 1) dfltCandle).high (cs.getD (k + 1 - 1) dfltCandle).low = true := by
      rw [hge] at hf
      exact hf
    have hc' : ((cs ++ ext).getD (k + 1 - 1) dfltCandle).low >
        ((cs ++ ext).getD (k + 1 + 1) dfltCandle).high := by
      rw [hprev, hnext]
      exact hc
    have hfilled' : checkFVGFilled (cs ++ ext) (k+1) Side.bearish
        ((cs ++ ext).getD (k + 1 + 1) dfltCandle).high
        ((cs ++ ext).getD (k + 1 - 1) dfltCandle).low = true := by
      rw [hprev, hnext]
      exact checkFVGFilled_extend ext hfilled
    constructor
    · refine ⟨_, mem_detectFVGsAll.mpr ⟨k, hlen, bearish_mem_gapAt hc'⟩, ?_, ?_, ?_, ?_, ?_⟩
      · rw [hge]
      · rw [hge]
      · rw [hge, hprev]
      · rw [hge, hnext]
      · exact hfilled'
    · intro gNew hmem hidx htype
      obtain ⟨k', hk', hgk'⟩ := mem_detectFVGsAll.mp hmem
      have hgidx : g.index = k + 1 := by rw [hge]
      rcases mem_gapAt hgk' with ⟨hc2, hge2⟩ | ⟨hc2, hge2⟩
      · exfalso
        have h1 : gNew.type = Side.bullish := by rw [hge2]
        have h2 : g.type = Side.bearish := by rw [hge]
        rw [htype, h2] at h1
        exact Side.noConfusion h1
      · have hk'' : k' = k := by
          have : gNew.index = k' + 1 := by rw [hge2]
          omega
        subst hk''
        rw [hge2, hprev, hnext]
        exact checkFVGFilled_extend ext hfilled

/-! ### C3 and C4: confidence scaffolding -/

/-- The raw technical sub-score accumulated in the bullish branch of
`generateSignal` (discount zone +30, support level present +50). -/
def bullTechConfidence (cs : List Candle) : ℕ :=
  (if (computeAnalysis cs).premiumDiscount.currentZone = PDZone.discount then 30 else 0) +
  (if ((computeAnalysis cs).supportResistance.find?
      (fun sr => sr.type = SRType.support)).isSome then 50 else 0)

/-- The raw SMC sub-score accumulated in the bullish branch of
`generateSignal` (order block +20, FVG +20, liquidity sweep +20,
CHoCH +15, Wyckoff accumulation +25). -/
def bullSmcConfidence (cs : List Candle) : ℕ :=
  (if (computeAnalysis cs).orderBlocks.any (fun ob =>
      ob.type = Side.bullish ∧ (cs.getD (cs.length - 1) dfltCandle).close ≥ ob.bottom ∧
      (cs.getD (cs.length - 1) dfltCandle).close ≤ ob.top * 1.02) then 20 else 0) +
  (if (computeAnalysis cs).fvgs.any (fun fvg => fvg.type = Side.bullish ∧ !fvg.filled)
   then 20 else 0) +
  (if (computeAnalysis cs).liquidityZones.any (fun lz =>
      lz.type = LiquiditySide.sellSide ∧ lz.swept) then 20 else 0) +
  (if (computeAnalysis cs).chochs.any (fun ch => ch.type = Side.bullish) then 15 else 0) +
  (if (computeAnalysis cs).wyckoff.phase = WyckoffPhase.accumulation then 25 else 0)

/-- The raw technical sub-score accumulated in the bearish branch. -/
def bearTechConfidence (cs : List Candle) : ℕ :=
  (if (computeAnalysis cs).premiumDiscount.currentZone = PDZone.premium then 30 else 0) +
  (if ((computeAnalysis cs).supportResistance.find?
      (fun sr => sr.type = SRType.resistance)).isSome then 50 else 0)

/-- The raw SMC sub-score accumulated in the bearish branch. -/
def bearSmcConfidence (cs : List Candle) : ℕ :=
  (if (computeAnalysis cs).orderBlocks.any (fun ob =>
      ob.type = Side.bearish ∧ (cs.getD (cs.length - 1) dfltCandle).close ≤ ob.top ∧
      (cs.getD (cs.length - 1) dfltCandle).close ≥ ob.bottom * 0.98) then 20 else 0) +
  (if (computeAnalysis cs).fvgs.any (fun fvg => fvg.type = Side.bearish ∧ !fvg.filled)
   then 20 else 0) +
  (if (computeAnalysis cs).liquidityZones.any (fun lz =>
      lz.type = LiquiditySide.buySide ∧ lz.swept) then 20 else 0) +
  (if (computeAnalysis cs).chochs.any (fun ch => ch.type = Side.bearish) then 15 else 0) +
  (if (computeAnalysis cs).wyckoff.phase = WyckoffPhase.distribution then 25 else 0)

lemma bullishSignal_technical (cs : List Candle) (symbol : String) (timeframe now : ℕ)
    (news : Option NewsResult) :
    (bullishSignal cs symbol timeframe now news).technicalConfidence =
      min 100 (bullTechConfidence cs) := rfl

lemma bullishSignal_smc (cs : List Candle) (symbol : String) (timeframe now : ℕ)
    (news : Option NewsResult) :
    (bullishSignal cs symbol timeframe now news).smcConfidence =
      min 100 (bullSmcConfidence cs) := rfl

lemma bullishSignal_sentiment (cs : List Candle) (symbol : String) (timeframe now : ℕ)
    (news : Option NewsResult) :
    (bullishSignal cs symbol timeframe now news).sentimentConfidence =
      min 100 (newsConfidenceOf news) := rfl

lemma bullishSignal_confidence (cs : List Candle) (symbol : String) (timeframe now : ℕ)
    (news : Option NewsResult) :
    (bullishSignal cs symbol timeframe now news).confidence =
      (mathRound (((bullTechConfidence cs + bullSmcConfidence cs +
        newsConfidenceOf news : ℕ) : ℚ) / 3)).toNat := rfl

lemma bearishSignal_technical (cs : List Candle) (symbol : String) (timeframe now : ℕ)
    (news : Option NewsResult) :
    (bearishSignal cs symbol timeframe now news).technicalConfidence =
      min 100 (bearTechConfidence cs) := rfl

lemma bearishSignal_smc (cs : List Candle) (symbol : String) (timeframe now : ℕ)
    (news : Option NewsResult) :
    (bearishSignal cs symbol timeframe now news).smcConfidence =
      min 100 (bearSmcConfidence cs) := rfl

lemma bearishSignal_sentiment (cs : List Candle) (symbol : String) (timeframe now : ℕ)
    (news : Option NewsResult) :
    (bearishSignal cs symbol timeframe now news).sentimentConfidence =
      min 100 (newsConfidenceOf news) := rfl

lemma bearishSignal_confidence (cs : List Candle) (symbol : String) (timeframe now : ℕ)
    (news : Option NewsResult) :
    (bearishSignal cs symbol timeframe now news).confidence =
      (mathRound (((bearTechConfidence cs + bearSmcConfidence cs +
        newsConfidenceOf news : ℕ) : ℚ) / 3)).toNat := rfl

lemma bullTechConfidence_le (cs : List Candle) : bullTechConfidence cs ≤ 80 := by
  unfold bullTechConfidence
  split_ifs <;> norm_num

lemma bullSmcConfidence_le (cs : List Candle) : bullSmcConfidence cs ≤ 100 := by
  unfold bullSmcConfidence
  split_ifs <;> norm_num

lemma bearTechConfidence_le (cs : List Candle) : bearTechConfidence cs ≤ 80 := by
  unfold bearTechConfidence
  split_ifs <;> norm_num

lemma bearSmcConfidence_le (cs : List Candle) : bearSmcConfidence cs ≤ 100 := by
  unfold bearSmcConfidence
  split_ifs <;> norm_num

lemma newsConfidenceOf_le (news : Option NewsResult) : newsConfidenceOf news ≤ 100 := by
  cases news with
  | none => exact Nat.zero_le _
  | some na =>
      obtain ⟨d, s⟩ := na
      cases d <;> simp [newsConfidenceOf] <;> omega

lemma mathRound_div3_nonneg (n : ℕ) : 0 ≤ mathRound ((n : ℚ) / 3) :=
  le_mathRound_of_le (by positivity)

lemma confRound_le_100 {n : ℕ} (h : n ≤ 300) : (mathRound ((n : ℚ) / 3)).toNat ≤ 100 := by
  rw [Int.toNat_le]
  apply mathRound_le_of_le
  rw [div_le_iff (by norm_num : (0:ℚ) < 3)]
  have h' : (n : ℚ) ≤ 300 := by exact_mod_cast h
  push_cast
  linarith

/-! ### C4 -/

/-- C4: in every emitted Signal the three sub-scores are capped at 100 and
the overall confidence is the arithmetic mean of the three stored
sub-scores with equal weighting, rounded to an integer in 0..100. -/
theorem c4_confidence_mean (cs : List Candle) (symbol : String) (timeframe now : ℕ)
    (news : Option NewsResult) (sig : Signal)
    (h : analyze cs symbol timeframe now news = some sig) :
    sig.technicalConfidence ≤ 100 ∧ sig.smcConfidence ≤ 100 ∧
    sig.sentimentConfidence ≤ 100 ∧
    (sig.confidence : ℤ) =
      mathRound (((sig.technicalConfidence + sig.smcConfidence +
        sig.sentimentConfidence : ℕ) : ℚ) / 3) ∧
    sig.confidence ≤ 100 := by
  unfold analyze at h
  by_cases hlen : cs.length < 100
  · rw [if_pos hlen] at h
    exact Option.noConfusion h
  · rw [if_neg hlen] at h
    unfold generateSignal at h
    rcases htr : (computeAnalysis cs).marketStructure.trend with _ | _ | _ <;> rw [htr] at h
    · -- bullish
      have hsig : sig = bullishSignal cs symbol timeframe now news :=
        (Option.some_inj.mp h).symm
      subst hsig
      rw [bullishSignal_technical, bullishSignal_smc, bullishSignal_sentiment,
        bullishSignal_confidence]
      have ht := bullTechConfidence_le cs
      have hs := bullSmcConfidence_le cs
      have hn := newsConfidenceOf_le news
      rw [Nat.min_eq_right (le_trans ht (by norm_num)), Nat.min_eq_right hs,
        Nat.min_eq_right hn]
      refine ⟨le_trans ht (by norm_num), hs, hn, ?_, confRound_le_100 (by omega)⟩
      rw [Int.toNat_of_nonneg (mathRound_div3_nonneg _)]
    · -- bearish
      have hsig : sig = bearishSignal cs symbol timeframe now news :=
        (Option.some_inj.mp h).symm
      subst hsig
      rw [bearishSignal_technical, bearishSignal_smc, bearishSignal_sentiment,
        bearishSignal_confidence]
      have ht := bearTechConfidence_le cs
      have hs := bearSmcConfidence_le cs
      have hn := newsConfidenceOf_le news
      rw [Nat.min_eq_right (le_trans ht (by norm_num)), Nat.min_eq_right hs,
        Nat.min_eq_right hn]
      refine ⟨le_trans ht (by norm_num), hs, hn, ?_, confRound_le_100 (by omega)⟩
      rw [Int.toNat_of_nonneg (mathRound_div3_nonneg _)]
    · exact Option.noConfusion h

/-- A throwaway Signal used only as the `Option.getD` fallback below. -/
def dfltSignal : Signal :=
  { symbol := "", timeframe := 0, timeframeName := "", action := SignalAction.BUY,
    bias := Side.bullish, entry := 0, entryTriggered := false, optimalEntry := 0,
    sl := 0, tp1 := 0, tp2 := 0, tp3 := 0, tp1Pips := 0, tp2Pips := 0, tp3Pips := 0,
    slPips := 0, tp1ZAR := 0, tp2ZAR := 0, tp3ZAR := 0, slZAR := 0, decimals := 0,
    confidence := 0, technicalConfidence := 0, smcConfidence := 0, sentimentConfidence := 0,
    riskReward := 0, reasons := [], newsAnalysis := none,
    analysisData := ⟨[], [], [], [], [], [], [], [], ⟨WyckoffPhase.neutral, 50⟩,
      PDZone.equilibrium⟩,
    timestamp := 0, status := "", concepts := [] }

/-- The signal `analyze` emits for `csB` with the sentiment fetch failed. -/
def sigB : Signal := (analyze csB "XAUUSD" 300 0 none).getD dfltSignal

/-- The signal `analyze` emits for `csB` with a successful bullish news
response of sentiment 80. -/
def sigB' : Signal := (analyze csB "XAUUSD" 300 0 (some newsB)).getD dfltSignal

theorem c4_witness :
    sigB.technicalConfidence ≤ 100 ∧ sigB.smcConfidence ≤ 100 ∧
    sigB.sentimentConfidence ≤ 100 ∧
    (sigB.confidence : ℤ) =
      mathRound (((sigB.technicalConfidence + sigB.smcConfidence +
        sigB.sentimentConfidence : ℕ) : ℚ) / 3) ∧
    sigB.confidence ≤ 100 :=
  c4_confidence_mean csB "XAUUSD" 300 0 none sigB rfl

/-! ### C3 -/

lemma confRound_strict_mono (x : ℕ) :
    (mathRound ((x : ℚ) / 3)).toNat < (mathRound (((x + 80 : ℕ) : ℚ) / 3)).toNat := by
  have h1 : mathRound ((x : ℚ) / 3) + 26 ≤ mathRound (((x + 80 : ℕ) : ℚ) / 3) := by
    unfold mathRound
    calc ⌊(x:ℚ)/3 + 1/2⌋ + 26 = ⌊(x:ℚ)/3 + 1/2 + (26 : ℤ)⌋ := by rw [Int.floor_add_int]
      _ ≤ ⌊((x + 80 : ℕ):ℚ)/3 + 1/2⌋ := Int.floor_le_floor (by push_cast; linarith)
  have h0 : (0:ℤ) ≤ mathRound ((x : ℚ)/3) := mathRound_div3_nonneg x
  omega

/-- C3 counterexample: at the concrete bullish input `csB`, a failed
sentiment fetch yields `sentimentConfidence = 0` as claimed, but the
emitted Signal is not merely the successful-fetch Signal with
`sentimentConfidence` zeroed: the overall `confidence` (the rounded mean
that folds in the news sub-score) differs between the failed fetch and a
successful bullish response of sentiment 80. -/
theorem c3_counterexample :
    (generateSignal csB "XAUUSD" 300 0 none).map Signal.sentimentConfidence = some 0 ∧
    (generateSignal csB "XAUUSD" 300 0 none).map Signal.confidence ≠
      (generateSignal csB "XAUUSD" 300 0 (some newsB)).map Signal.confidence := by
  have htr : (computeAnalysis csB).marketStructure.trend = Trend.bullish := by decide
  constructor
  · unfold generateSignal
    rw [htr]
    simp only [Option.map_some']
    rw [bullishSignal_sentiment]
    rfl
  · unfold generateSignal
    rw [htr]
    simp only [Option.map_some', ne_eq, Option.some.injEq]
    rw [bullishSignal_confidence, bullishSignal_confidence]
    intro hEq
    have hn0 : newsConfidenceOf none = 0 := rfl
    have hn80 : newsConfidenceOf (some newsB) = 80 := rfl
    rw [hn0, hn80] at hEq
    simp only [Nat.add_zero] at hEq
    exact absurd hEq
      (Nat.ne_of_lt (confRound_strict_mono (bullTechConfidence csB + bullSmcConfidence csB)))

/-- Equality of every Signal field other than the four that depend on the
news outcome (`confidence`, `sentimentConfidence`, `reasons`,
`newsAnalysis`). -/
def SignalStableEq (s s' : Signal) : Prop :=
  s.symbol = s'.symbol ∧ s.timeframe = s'.timeframe ∧ s.timeframeName = s'.timeframeName ∧
  s.action = s'.action ∧ s.bias = s'.bias ∧ s.entry = s'.entry ∧
  s.entryTriggered = s'.entryTriggered ∧ s.optimalEntry = s'.optimalEntry ∧
  s.sl = s'.sl ∧ s.tp1 = s'.tp1 ∧ s.tp2 = s'.tp2 ∧ s.tp3 = s'.tp3 ∧
  s.tp1Pips = s'.tp1Pips ∧ s.tp2Pips = s'.tp2Pips ∧ s.tp3Pips = s'.tp3Pips ∧
  s.slPips = s'.slPips ∧ s.tp1ZAR = s'.tp1ZAR ∧ s.tp2ZAR = s'.tp2ZAR ∧
  s.tp3ZAR = s'.tp3ZAR ∧ s.slZAR = s'.slZAR ∧ s.decimals = s'.decimals ∧
  s.technicalConfidence = s'.technicalConfidence ∧ s.smcConfidence = s'.smcConfidence ∧
  s.riskReward = s'.riskReward ∧ s.analysisData = s'.analysisData ∧
  s.timestamp = s'.timestamp ∧ s.status = s'.status ∧ s.concepts = s'.concepts

/-- C3 amended: when the sentiment fetch fails or times out, signal
generation still completes for the same candle input, the decision to emit
or suppress is unchanged, and the emitted Signal carries
`sentimentConfidence = 0` and agrees with the successful-fetch Signal on
every field other than the news-derived ones (`sentimentConfidence`, the
overall `confidence`, `reasons`, `newsAnalysis`).  The 10-second blocking
bound itself is a real-time property of `Promise.race` outside this
embedding. -/
theorem c3_amended (cs : List Candle) (symbol : String) (timeframe now : ℕ)
    (na : NewsResult) :
    ((generateSignal cs symbol timeframe now none).isSome ↔
      (generateSignal cs symbol timeframe now (some na)).isSome) ∧
    (∀ s s', generateSignal cs symbol timeframe now none = some s →
      generateSignal cs symbol timeframe now (some na) = some s' →
      s.sentimentConfidence = 0 ∧ SignalStableEq s s') := by
  rcases htr : (computeAnalysis cs).marketStructure.trend with _ | _ | _
  · constructor
    · unfold generateSignal
      rw [htr]
      simp
    · intro s s' hs hs'
      unfold generateSignal at hs hs'
      rw [htr] at hs hs'
      have h1 : s = bullishSignal cs symbol timeframe now none :=
        (Option.some_inj.mp hs).symm
      have h2 : s' = bullishSignal cs symbol timeframe now (some na) :=
        (Option.some_inj.mp hs').symm
      subst h1
      subst h2
      refine ⟨by rw [bullishSignal_sentiment]; rfl, ?_⟩
      unfold SignalStableEq
      exact ⟨rfl, rfl, rfl, rfl, rfl, rfl, rfl, rfl, rfl, rfl, rfl, rfl, rfl, rfl,
        rfl, rfl, rfl, rfl, rfl, rfl, rfl, rfl, rfl, rfl, rfl, rfl, rfl, rfl⟩
  · constructor
    · unfold generateSignal
      rw [htr]
      simp
    · intro s s' hs hs'
      unfold generateSignal at hs hs'
      rw [htr] at hs hs'
      have h1 : s = bearishSignal cs symbol timeframe now none :=
        (Option.some_inj.mp hs).symm
      have h2 : s' = bearishSignal cs symbol timeframe now (some na) :=
        (Option.some_inj.mp hs').symm
      subst h1
      subst h2
      refine ⟨by rw [bearishSignal_sentiment]; rfl, ?_⟩
      unfold SignalStableEq
      exact ⟨rfl, rfl, rfl, rfl, rfl, rfl, rfl, rfl, rfl, rfl, rfl, rfl, rfl, rfl,
        rfl, rfl, rfl, rfl, rfl, rfl, rfl, rfl, rfl, rfl, rfl, rfl, rfl, rfl⟩
  · constructor
    · unfold generateSignal
      rw [htr]
    · intro s s' hs _
      unfold generateSignal at hs
      rw [htr] at hs
      exact Option.noConfusion hs

theorem c3_witness : sigB.sentimentConfidence = 0 ∧ SignalStableEq sigB sigB' :=
  (c3_amended csB "XAUUSD" 300 0 newsB).2 sigB sigB' rfl rfl

theorem c8_witness :
    (∃ gNew ∈ detectFVGsAll (cs4fvg ++ cs4ext),
        gNew.index = (FVG.mk Side.bullish 20 10 1 10 true).index ∧
        gNew.type = (FVG.mk Side.bullish 20 10 1 10 true).type ∧
        gNew.top = (FVG.mk Side.bullish 20 10 1 10 true).top ∧
        gNew.bottom = (FVG.mk Side.bullish 20 10 1 10 true).bottom ∧
        gNew.filled = true) ∧
    (∀ gNew ∈ detectFVGsAll (cs4fvg ++ cs4ext),
        gNew.index = (FVG.mk Side.bullish 20 10 1 10 true).index →
        gNew.type = (FVG.mk Side.bullish 20 10 1 10 true).type →
        gNew.filled = true) :=
  c8_fvg_filled_monotonic cs4fvg cs4ext ⟨Side.bullish, 20, 10, 1, 10, true⟩ (by decide) rfl
